import Mathlib

/-!
# Verification of the godo event-ingestion pipeline

A shallow embedding, in Lean 4, of the core of the `godo` repository's
scraper framework (`backend/scripts/scrapers/*.py`, `backend/app/models/event.py`,
`backend/app/tasks/scraper_tasks.py`), together with theorems settling the
frozen specification claims about it.

Modelling conventions:
* Python values flowing through raw provider payloads are embedded as `PyVal`
  (None / bool / number / string / list / dict).  Numbers are embedded as `ℚ`;
  no claim depends on binary floating-point rounding.
* Python functions that can raise are embedded in `Except PyErr`; an
  `Except.error` models an uncaught Python exception, `Except.ok none`
  models an intentional skip (`return None`).
* Machine-level hashing (`hashlib.md5`) is embedded bit-faithfully over
  `Nat` with explicit `% 2^32` reductions.
* String operations are implemented over `List Char` so that every
  definition evaluates by kernel reduction; ASCII case conversion is used
  (all strings appearing in the scrapers' tables and claims are ASCII).
-/

/-! ## Python value model -/

/-- Embedded Python/JSON value, as produced by `response.json()`. -/
inductive PyVal where
  | pnone
  | pbool (b : Bool)
  | pnum (q : ℚ)
  | pstr (s : String)
  | plist (xs : List PyVal)
  | pdict (kvs : List (String × PyVal))
deriving Repr

/-- A Python dict with string keys (the shape of every raw item). -/
abbrev PyDict := List (String × PyVal)

/-- Uncaught Python exception classes that the scraper code can raise. -/
inductive PyErr where
  | attributeError
  | typeError
  | keyError
  | valueError
  | validationError
deriving Repr, DecidableEq

/-- Python truthiness (`if x:`). -/
def truthy : PyVal → Bool
  | .pnone => false
  | .pbool b => b
  | .pnum q => !(q = 0)
  | .pstr s => !(s = "")
  | .plist xs => !xs.isEmpty
  | .pdict kvs => !kvs.isEmpty

/-- `d.get(k)` on a dict: the value at `k`, defaulting to `None`. -/
def pyGet (d : PyDict) (k : String) : PyVal :=
  match d.find? (fun kv => kv.1 = k) with
  | some kv => kv.2
  | none => .pnone

/-- `d.get(k, default)` on a dict. -/
def pyGetD (d : PyDict) (k : String) (dflt : PyVal) : PyVal :=
  match d.find? (fun kv => kv.1 = k) with
  | some kv => kv.2
  | none => dflt

/-- Python `a or b`: `a` if truthy, else `b`. -/
def pyOr (a b : PyVal) : PyVal := if truthy a then a else b

/-- Calling a `str` method (e.g. `.strip()`, `.lower()`) on a value:
`AttributeError` unless the value is a string. -/
def pyAsStr : PyVal → Except PyErr String
  | .pstr s => .ok s
  | _ => .error .attributeError

/-- `v.get(k, default)` where `v` must be a dict (`AttributeError` otherwise). -/
def pyGetAttrD (v : PyVal) (k : String) (dflt : PyVal) : Except PyErr PyVal :=
  match v with
  | .pdict kvs => .ok (pyGetD kvs k dflt)
  | _ => .error .attributeError

/-! ## Character-list string operations (Python `str` methods) -/

/-- The ASCII whitespace characters stripped by Python `str.strip()`. -/
def isPySpace (c : Char) : Bool :=
  c = ' ' || c = '\t' || c = '\n' || c = '\x0d' || c = Char.ofNat 11 || c = Char.ofNat 12

/-- `str.strip()` over a character list. -/
def stripChars (cs : List Char) : List Char :=
  ((cs.dropWhile isPySpace).reverse.dropWhile isPySpace).reverse

/-- `str.strip()`. -/
def pyStrip (s : String) : String := ⟨stripChars s.toList⟩

/-- `str.lower()` (ASCII). -/
def pyLower (s : String) : String := ⟨s.toList.map Char.toLower⟩

/-- `str.upper()` (ASCII). -/
def pyUpper (s : String) : String := ⟨s.toList.map Char.toUpper⟩

/-- Does `pre` start the list `cs`? -/
def startsWithL : List Char → List Char → Bool
  | [], _ => true
  | _ :: _, [] => false
  | p :: ps, c :: cs => p = c && startsWithL ps cs

/-- Python substring containment `needle in hay` over char lists. -/
def containsL (needle : List Char) : List Char → Bool
  | [] => needle.isEmpty
  | c :: t => startsWithL needle (c :: t) || containsL needle t

/-- Python `needle in hay` for strings. -/
def pyContains (hay needle : String) : Bool := containsL needle.toList hay.toList

/-- `str.startswith(pre)`. -/
def pyStartsWith (s pre : String) : Bool := startsWithL pre.toList s.toList

/-- Python `s.split(sep)` for a single-character separator. -/
def splitCh (sep : Char) : List Char → List (List Char)
  | [] => [[]]
  | c :: t =>
    match splitCh sep t with
    | h :: r => if c = sep then [] :: h :: r else (c :: h) :: r
    | [] => [[c]]

/-- Python `s.split(":")` returning strings. -/
def pySplit (sep : Char) (s : String) : List String :=
  (splitCh sep s.toList).map (fun cs => ⟨cs⟩)

/-- Remove every (non-overlapping, leftmost-first) occurrence of the
two-character pattern `[a, b]`: `str.replace("AB", "")`. -/
def removePair (a b : Char) : List Char → List Char
  | x :: y :: t => if x = a ∧ y = b then removePair a b t else x :: removePair a b (y :: t)
  | l => l

/-- Replace every occurrence of the single character `c` by `repl`:
`str.replace("Z", "+00:00")`. -/
def replaceChar (c : Char) (repl : List Char) : List Char → List Char
  | [] => []
  | x :: t => if x = c then repl ++ replaceChar c repl t else x :: replaceChar c repl t

/-- Python `int(s)`: optional surrounding whitespace, optional sign, one or
more decimal digits; `none` models `ValueError`. -/
def parsePyIntCore : List Char → Option Int
  | [] => none
  | cs =>
    let core := stripChars cs
    let (sign, digits) :=
      match core with
      | '-' :: t => ((-1 : Int), t)
      | '+' :: t => ((1 : Int), t)
      | t => ((1 : Int), t)
    if digits.isEmpty || !digits.all Char.isDigit then none
    else some (sign * Int.ofNat (digits.foldl (fun n c => 10 * n + (c.toNat - 48)) 0))

/-- Python `int(s)` on a string. -/
def pyInt (s : String) : Option Int := parsePyIntCore s.toList

/-! ## Naive datetimes and `strptime`

`datetime.strptime` in CPython compiles each format directive to a regular
expression alternation (`_strptime.TimeRE`) and matches the whole input,
then builds a `datetime`, which validates the calendar fields.  The
embedding reproduces the directive alternations used by the scrapers'
formats (`%Y %m %d %H %M %S %f`), the whole-string match requirement, the
regex backtracking order, and the calendar validation. -/

/-- A naive `datetime.datetime` value. -/
structure PyDateTime where
  year : Nat
  month : Nat
  day : Nat
  hour : Nat
  minute : Nat
  second : Nat
  microsecond : Nat
deriving Repr, DecidableEq

/-- Gregorian leap year (`calendar.isleap`). -/
def isLeapYear (y : Nat) : Bool :=
  (y % 4 = 0 && y % 100 ≠ 0) || y % 400 = 0

/-- Days in a month of the proleptic Gregorian calendar. -/
def daysInMonth (y m : Nat) : Nat :=
  if m = 2 then (if isLeapYear y then 29 else 28)
  else if m = 4 || m = 6 || m = 9 || m = 11 then 30
  else 31

/-- The field validation performed by the `datetime` constructor
(`MINYEAR ≤ year ≤ MAXYEAR`, month, day-of-month, time ranges). -/
def datetimeFieldsValid (y mo d h mi s us : Nat) : Bool :=
  1 ≤ y && y ≤ 9999 && 1 ≤ mo && mo ≤ 12 && 1 ≤ d && d ≤ daysInMonth y mo &&
  h ≤ 23 && mi ≤ 59 && s ≤ 59 && us ≤ 999999

/-- `datetime` comparison key (naive datetimes compare field-lexicographically). -/
def PyDateTime.key (t : PyDateTime) : Nat :=
  ((((((t.year * 13 + t.month) * 32 + t.day) * 24 + t.hour) * 60 + t.minute) * 60
      + t.second) * 1000000 + t.microsecond)

/-- `t1 <= t2` on naive datetimes. -/
def dtLe (t1 t2 : PyDateTime) : Bool := t1.key ≤ t2.key

/-- `datetime.replace(hour=h, minute=m)`; raises `ValueError` when the new
fields are out of range (`int` arguments may be negative or too large). -/
def dtReplaceTime (t : PyDateTime) (h m : Int) : Except PyErr PyDateTime :=
  if 0 ≤ h ∧ h ≤ 23 ∧ 0 ≤ m ∧ m ≤ 59 then
    .ok { t with hour := h.toNat, minute := m.toNat }
  else .error .valueError

/-- `t + timedelta(days=1)` (time of day unchanged). -/
def dtAddOneDay (t : PyDateTime) : PyDateTime :=
  if t.day + 1 ≤ daysInMonth t.year t.month then { t with day := t.day + 1 }
  else if t.month + 1 ≤ 12 then { t with month := t.month + 1, day := 1 }
  else { t with year := t.year + 1, month := 1, day := 1 }

/-- `t + timedelta(days=n)`. -/
def dtAddDays (t : PyDateTime) : Nat → PyDateTime
  | 0 => t
  | n + 1 => dtAddOneDay (dtAddDays t n)

/-- Format directives appearing in the scrapers' `strptime` formats. -/
inductive FmtTok where
  | lit (c : Char)
  | dY | dm | dd | dH | dMin | dS | df
deriving Repr, DecidableEq

/-- Partially-filled `strptime` result, with CPython's defaults
(year 1900, month 1, day 1, midnight). -/
structure TimeAcc where
  y : Nat := 1900
  mo : Nat := 1
  d : Nat := 1
  h : Nat := 0
  mi : Nat := 0
  s : Nat := 0
  us : Nat := 0
deriving Repr

/-- Record a parsed directive value. -/
def setTok (tm : TimeAcc) : FmtTok → Nat → TimeAcc
  | .dY, v => { tm with y := v }
  | .dm, v => { tm with mo := v }
  | .dd, v => { tm with d := v }
  | .dH, v => { tm with h := v }
  | .dMin, v => { tm with mi := v }
  | .dS, v => { tm with s := v }
  | .df, v => { tm with us := v }
  | .lit _, _ => tm

/-- Numeric value of a digit character. -/
def digitVal (c : Char) : Nat := c.toNat - 48

/-- Match one digit in the inclusive range `[lo, hi]`. -/
def matchDigit (lo hi : Nat) : List Char → List (Nat × List Char)
  | c :: rest => if c.isDigit && lo ≤ digitVal c && digitVal c ≤ hi then [(digitVal c, rest)] else []
  | [] => []

/-- Match a fixed leading digit `d0` followed by one digit in `[lo, hi]`. -/
def matchTwo (d0 lo hi : Nat) : List Char → List (Nat × List Char)
  | c :: c' :: rest =>
    if c.isDigit && digitVal c = d0 && c'.isDigit && lo ≤ digitVal c' && digitVal c' ≤ hi then
      [(10 * d0 + digitVal c', rest)]
    else []
  | _ => []

/-- Match a digit in `[lo0, hi0]` followed by any digit. -/
def matchRangeTwo (lo0 hi0 : Nat) : List Char → List (Nat × List Char)
  | c :: c' :: rest =>
    if c.isDigit && lo0 ≤ digitVal c && digitVal c ≤ hi0 && c'.isDigit then
      [(10 * digitVal c + digitVal c', rest)]
    else []
  | _ => []

/-- Alternatives (in regex order) for the `%f` directive: 1–6 digits,
greedy, scaled to microseconds by right-padding with zeros. -/
def fracAlts (cs : List Char) : List (Nat × List Char) :=
  let digits := (cs.takeWhile Char.isDigit).take 6
  let n := digits.length
  (List.range n).map (fun i =>
    let k := n - i
    let ds := digits.take k
    (ds.foldl (fun acc c => 10 * acc + digitVal c) 0 * 10 ^ (6 - k), cs.drop k))

/-- The regex alternatives, in CPython `TimeRE` order, for each directive. -/
def dirAlts : FmtTok → List Char → List (Nat × List Char)
  | .lit _, _ => []
  | .dY, cs =>
    -- %Y: exactly four digits
    (match cs with
     | a :: b :: c :: d :: rest =>
       if a.isDigit && b.isDigit && c.isDigit && d.isDigit then
         [(digitVal a * 1000 + digitVal b * 100 + digitVal c * 10 + digitVal d, rest)]
       else []
     | _ => [])
  | .dm, cs => matchTwo 1 0 2 cs ++ matchTwo 0 1 9 cs ++ matchDigit 1 9 cs
  | .dd, cs => matchTwo 3 0 1 cs ++ matchRangeTwo 1 2 cs ++ matchTwo 0 1 9 cs ++ matchDigit 1 9 cs
  | .dH, cs => matchTwo 2 0 3 cs ++ matchRangeTwo 0 1 cs ++ matchDigit 0 9 cs
  | .dMin, cs => matchRangeTwo 0 5 cs ++ matchDigit 0 9 cs
  | .dS, cs => matchTwo 6 0 1 cs ++ matchRangeTwo 0 5 cs ++ matchDigit 0 9 cs
  | .df, cs => fracAlts cs

/-- First successful application of `f` along a list. -/
def firstSome {α β : Type} (f : α → Option β) : List α → Option β
  | [] => none
  | a :: t =>
    match f a with
    | some b => some b
    | none => firstSome f t

/-- Regex-style matcher for a token list against the input: tries directive
alternatives in order with backtracking and requires the whole input to be
consumed (CPython raises `ValueError` on unconverted trailing data).
`fuel` only bounds recursion depth; `fuel = toks.length + 1` is exact. -/
def matchToks (fuel : Nat) (toks : List FmtTok) (cs : List Char) (tm : TimeAcc) :
    Option TimeAcc :=
  match fuel with
  | 0 => none
  | fuel + 1 =>
    match toks with
    | [] => if cs.isEmpty then some tm else none
    | .lit c :: toks' =>
      match cs with
      | [] => none
      | c' :: rest => if c' = c then matchToks fuel toks' rest tm else none
    | tok :: toks' =>
      firstSome (fun vr => matchToks fuel toks' vr.2 (setTok tm tok vr.1)) (dirAlts tok cs)

/-- `datetime.strptime(s, fmt)`: `none` models the `ValueError` raised on a
failed match or on out-of-range calendar fields. -/
def strptime (fmt : List FmtTok) (s : String) : Option PyDateTime :=
  match matchToks (fmt.length + 1) fmt s.toList {} with
  | none => none
  | some tm =>
    if datetimeFieldsValid tm.y tm.mo tm.d tm.h tm.mi tm.s tm.us then
      some ⟨tm.y, tm.mo, tm.d, tm.h, tm.mi, tm.s, tm.us⟩
    else none

/-- `"%Y-%m-%d"`. -/
def fmtYmd : List FmtTok := [.dY, .lit '-', .dm, .lit '-', .dd]

/-- `"%Y-%m-%dT%H:%M:%S"`. -/
def fmtIso : List FmtTok :=
  [.dY, .lit '-', .dm, .lit '-', .dd, .lit 'T', .dH, .lit ':', .dMin, .lit ':', .dS]

/-- `"%Y-%m-%dT%H:%M:%S.%f"`. -/
def fmtIsoFrac : List FmtTok := fmtIso ++ [.lit '.', .df]

/-- `"%Y-%m-%dT%H:%M:%SZ"`. -/
def fmtIsoZ : List FmtTok := fmtIso ++ [.lit 'Z']

/-- `"%m/%d/%Y"`. -/
def fmtMdy : List FmtTok := [.dm, .lit '/', .dd, .lit '/', .dY]

/-- The ordered format list of `NYCParksScraper._parse_date`. -/
def nycParksDateFormats : List (List FmtTok) := [fmtYmd, fmtIso, fmtIsoFrac, fmtIsoZ, fmtMdy]

/-- `NYCParksScraper._parse_date` on a (non-empty) string: try the formats
in order, return the first successful parse, `none` when all fail. -/
def parseDateStr (s : String) : Option PyDateTime :=
  firstSome (fun fmt => strptime fmt s) nycParksDateFormats

/-- `NYCParksScraper._parse_date` as called on a raw field value:
a falsy argument returns `None` up front; `strptime` on a truthy
non-string raises `TypeError` (uncaught). -/
def pyParseDate (v : PyVal) : Except PyErr (Option PyDateTime) :=
  if !truthy v then .ok none
  else
    match v with
    | .pstr s => .ok (if s = "" then none else parseDateStr s)
    | _ => .error .typeError

/-! ## Canonical event enumerations (`app/models/event.py`) -/

/-- `EventCategory`. -/
inductive EventCategory where
  | networking | culture | fitness | food | nightlife | outdoor | professional
deriving Repr, DecidableEq

/-- `EventSource` (the provider-name enumeration).  The source enumeration
has no `TICKETMASTER` member even though `ticketmaster.py` references
`EventSource.TICKETMASTER`; the member is added here as the evident intent
so that the Ticketmaster transform's pre-construction paths (the only ones
any claim touches) can be analysed.  (The enum is also shadowed later in
`event.py` by a `BaseModel` of the same name.) -/
inductive EventSource where
  | eventbrite | resy | opentable | partiful | nyc_parks | nyc_open_data
  | nyc_cultural | meetup | facebook_events | user_generated | manual
  | ticketmaster
deriving Repr, DecidableEq

/-- `EventSource.value` strings. -/
def EventSource.value : EventSource → String
  | .eventbrite => "eventbrite"
  | .resy => "resy"
  | .opentable => "opentable"
  | .partiful => "partiful"
  | .nyc_parks => "nyc_parks"
  | .nyc_open_data => "nyc_open_data"
  | .nyc_cultural => "nyc_cultural"
  | .meetup => "meetup"
  | .facebook_events => "facebook_events"
  | .user_generated => "user_generated"
  | .manual => "manual"
  | .ticketmaster => "ticketmaster"

/-! ## Python `float(...)` (for coordinate extraction) -/

/-- Python `float(s)` on a string, restricted to finite decimal/exponent
literals (the only shapes provider payloads carry); `none` models
`ValueError`. -/
def parsePyFloat (s : String) : Option ℚ :=
  let cs := stripChars s.toList
  let (sign, cs) : ℚ × List Char :=
    match cs with
    | '-' :: t => (-1, t)
    | '+' :: t => (1, t)
    | t => (1, t)
  let intPart := cs.takeWhile Char.isDigit
  let rest := cs.drop intPart.length
  let (fracPart, rest) :=
    match rest with
    | '.' :: t => (t.takeWhile Char.isDigit, t.drop (t.takeWhile Char.isDigit).length)
    | t => ([], t)
  let (expVal, rest) :=
    match rest with
    | e :: t =>
      if e = 'e' ∨ e = 'E' then
        let (esign, t') : Int × List Char :=
          match t with
          | '-' :: t2 => (-1, t2)
          | '+' :: t2 => (1, t2)
          | t2 => (1, t2)
        let eDigits := t'.takeWhile Char.isDigit
        if eDigits.isEmpty then (none, ['x'])
        else (some (esign * Int.ofNat (eDigits.foldl (fun n c => 10 * n + digitVal c) 0)),
              t'.drop eDigits.length)
      else (some 0, e :: t)
    | [] => (some 0, [])
  if intPart.isEmpty ∧ fracPart.isEmpty then none
  else
    match expVal with
    | none => none
    | some ev =>
      if !rest.isEmpty then none
      else
        let ip : ℚ := (intPart.foldl (fun n c => 10 * n + digitVal c) 0 : Nat)
        let fp : ℚ := (fracPart.foldl (fun n c => 10 * n + digitVal c) 0 : Nat)
        let base := ip + fp / ((10 : ℚ) ^ fracPart.length)
        some (sign * base * (10 : ℚ) ^ (ev : Int))

/-- Python `float(x)` on an arbitrary value: `ValueError` for an unparseable
string, `TypeError` for `None`, lists and dicts. -/
def pyFloatOf : PyVal → Except PyErr ℚ
  | .pnum q => .ok q
  | .pbool b => .ok (if b then 1 else 0)
  | .pstr s =>
    match parsePyFloat s with
    | some q => .ok q
    | none => .error .valueError
  | _ => .error .typeError

/-! ## `NYCParksScraper` field normalization helpers -/

/-- `NYC_PARKS_CATEGORY_MAP`, in source insertion order. -/
def NYC_PARKS_CATEGORY_MAP : List (String × EventCategory) :=
  [("sports", .fitness), ("fitness", .fitness), ("nature", .outdoor),
   ("education", .culture), ("arts", .culture), ("culture", .culture),
   ("music", .nightlife), ("volunteer", .networking), ("tours", .outdoor),
   ("kids", .culture), ("seniors", .culture)]

/-- `ALLOWED_BOROUGHS` (shared by the parks and open-data scrapers). -/
def ALLOWED_BOROUGHS : List String := ["Manhattan", "Brooklyn"]

/-- Exact-key lookup in an ordered keyword table. -/
def lookupKey (tbl : List (String × EventCategory)) (t : String) : Option EventCategory :=
  match tbl.find? (fun kv => kv.1 = t) with
  | some kv => some kv.2
  | none => none

/-- First table entry whose keyword occurs as a substring of `t`
(`if key in raw_lower`), in table order. -/
def firstKeywordHit (tbl : List (String × EventCategory)) (t : String) :
    Option EventCategory :=
  match tbl.find? (fun kv => pyContains t kv.1) with
  | some kv => some kv.2
  | none => none

/-- `NYCParksScraper._map_category` on its annotated `Optional[str]` input:
falsy → `OUTDOOR`; otherwise lowercase-strip, direct table lookup, then
substring lookup in table order, defaulting to `OUTDOOR`. -/
def nycParksMapCategory : Option String → EventCategory
  | none => .outdoor
  | some s =>
    if s = "" then .outdoor
    else
      let t := pyStrip (pyLower s)
      match lookupKey NYC_PARKS_CATEGORY_MAP t with
      | some c => c
      | none =>
        match firstKeywordHit NYC_PARKS_CATEGORY_MAP t with
        | some c => c
        | none => .outdoor

/-- `_map_category` as invoked from `transform` on a raw value: a truthy
non-string raises `AttributeError` at `raw_category.lower()`. -/
def pyMapCategoryParks (v : PyVal) : Except PyErr EventCategory :=
  if !truthy v then .ok .outdoor
  else
    match v with
    | .pstr s => .ok (nycParksMapCategory (some s))
    | _ => .error .attributeError

/-- `NYCParksScraper._parse_time` on a string: AM/PM or 24-hour `h:m[...]`,
returning `(hour, minute)` as Python ints (possibly negative or > 23 —
the caller's `datetime.replace` does the range checking). -/
def pyParseTimeStr (timeStr : String) : Option (Int × Int) :=
  if timeStr = "" then none
  else
    let ts := pyUpper (pyStrip timeStr)
    if pyContains ts "AM" || pyContains ts "PM" then
      let isPm := pyContains ts "PM"
      let ts2 := pyStrip ⟨removePair 'P' 'M' (removePair 'A' 'M' ts.toList)⟩
      let parts := pySplit ':' ts2
      if parts.length ≥ 2 then
        match pyInt (parts.getD 0 ""), pyInt (parts.getD 1 "") with
        | some h, some m =>
          let h' := if isPm ∧ h ≠ 12 then h + 12 else if !isPm ∧ h = 12 then 0 else h
          some (h', m)
        | _, _ => none
      else none
    else
      let parts := pySplit ':' ts
      if parts.length ≥ 2 then
        match pyInt (parts.getD 0 ""), pyInt (parts.getD 1 "") with
        | some h, some m => some (h, m)
        | _, _ => none
      else none

/-- `_parse_time` as invoked on a raw value: falsy returns `None` before any
method call; a truthy non-string raises `AttributeError` at `.strip()`. -/
def pyParseTime (v : PyVal) : Except PyErr (Option (Int × Int)) :=
  if !truthy v then .ok none
  else
    match v with
    | .pstr s => .ok (pyParseTimeStr s)
    | _ => .error .attributeError

/-- Field-name fallback lists of `_extract_coordinates`. -/
def latFieldNames : List String := ["latitude", "lat", "location_lat"]

/-- Longitude field-name fallbacks. -/
def lngFieldNames : List String := ["longitude", "lng", "lon", "location_lng", "location_lon"]

/-- One pass of the `for field in ...` loop: first present-and-truthy field
whose value converts with `float(...)`; conversion errors (`ValueError`,
`TypeError`) are caught and the loop continues. -/
def firstCoord (e : PyDict) : List String → Option ℚ
  | [] => none
  | f :: rest =>
    if (e.find? (fun kv => kv.1 = f)).isSome && truthy (pyGet e f) then
      match pyFloatOf (pyGet e f) with
      | .ok q => some q
      | .error _ => firstCoord e rest
    else firstCoord e rest

/-- `NYCParksScraper._extract_coordinates`: field-name fallbacks, then the
nested `location` dict; total (every conversion error is caught). -/
def extractCoordinates (e : PyDict) : Option ℚ × Option ℚ :=
  let lat := firstCoord e latFieldNames
  let lng := firstCoord e lngFieldNames
  if lat.isNone || lng.isNone then
    match pyGetD e "location" (.pdict []) with
    | .pdict kvs =>
      let lat' :=
        if lat.isNone && (kvs.find? (fun kv => kv.1 = "latitude")).isSome then
          match pyFloatOf (pyGet kvs "latitude") with
          | .ok q => some q
          | .error _ => none
        else lat
      let lng' :=
        if lng.isNone && (kvs.find? (fun kv => kv.1 = "longitude")).isSome then
          match pyFloatOf (pyGet kvs "longitude") with
          | .ok q => some q
          | .error _ => none
        else lng
      (lat', lng')
    | _ => (lat, lng)
  else (lat, lng)

/-! ## `hashlib.md5` (RFC 1321), over `Nat` with explicit `% 2^32` -/

/-- UTF-8 encoding of one character (`str.encode()`). -/
def utf8EncodeChar (c : Char) : List Nat :=
  let n := c.toNat
  if n < 0x80 then [n]
  else if n < 0x800 then [0xC0 ||| (n >>> 6), 0x80 ||| (n &&& 0x3F)]
  else if n < 0x10000 then
    [0xE0 ||| (n >>> 12), 0x80 ||| ((n >>> 6) &&& 0x3F), 0x80 ||| (n &&& 0x3F)]
  else
    [0xF0 ||| (n >>> 18), 0x80 ||| ((n >>> 12) &&& 0x3F),
     0x80 ||| ((n >>> 6) &&& 0x3F), 0x80 ||| (n &&& 0x3F)]

/-- `s.encode()`: UTF-8 bytes of a string. -/
def utf8Encode (s : String) : List Nat :=
  (s.toList.map utf8EncodeChar).flatten

/-- Reduce modulo `2^32`. -/
def m32 (n : Nat) : Nat := n % 4294967296

/-- 32-bit left rotation. -/
def rotl32 (x s : Nat) : Nat := m32 ((x <<< s) ||| (x >>> (32 - s)))

/-- 32-bit complement. -/
def not32 (x : Nat) : Nat := x ^^^ 0xFFFFFFFF

/-- The MD5 sine-derived constant table `K[0..63]`. -/
def md5K : List Nat :=
  [0xd76aa478, 0xe8c7b756, 0x242070db, 0xc1bdceee,
   0xf57c0faf, 0x4787c62a, 0xa8304613, 0xfd469501,
   0x698098d8, 0x8b44f7af, 0xffff5bb1, 0x895cd7be,
   0x6b901122, 0xfd987193, 0xa679438e, 0x49b40821,
   0xf61e2562, 0xc040b340, 0x265e5a51, 0xe9b6c7aa,
   0xd62f105d, 0x02441453, 0xd8a1e681, 0xe7d3fbc8,
   0x21e1cde6, 0xc33707d6, 0xf4d50d87, 0x455a14ed,
   0xa9e3e905, 0xfcefa3f8, 0x676f02d9, 0x8d2a4c8a,
   0xfffa3942, 0x8771f681, 0x6d9d6122, 0xfde5380c,
   0xa4beea44, 0x4bdecfa9, 0xf6bb4b60, 0xbebfbc70,
   0x289b7ec6, 0xeaa127fa, 0xd4ef3085, 0x04881d05,
   0xd9d4d039, 0xe6db99e5, 0x1fa27cf8, 0xc4ac5665,
   0xf4292244, 0x432aff97, 0xab9423a7, 0xfc93a039,
   0x655b59c3, 0x8f0ccc92, 0xffeff47d, 0x85845dd1,
   0x6fa87e4f, 0xfe2ce6e0, 0xa3014314, 0x4e0811a1,
   0xf7537e82, 0xbd3af235, 0x2ad7d2bb, 0xeb86d391]

/-- The MD5 per-round rotation amounts `S[0..63]`. -/
def md5S : List Nat :=
  [7, 12, 17, 22, 7, 12, 17, 22, 7, 12, 17, 22, 7, 12, 17, 22,
   5, 9, 14, 20, 5, 9, 14, 20, 5, 9, 14, 20, 5, 9, 14, 20,
   4, 11, 16, 23, 4, 11, 16, 23, 4, 11, 16, 23, 4, 11, 16, 23,
   6, 10, 15, 21, 6, 10, 15, 21, 6, 10, 15, 21, 6, 10, 15, 21]

/-- The 64-byte chunk's words `M[0..15]`, little-endian. -/
def md5Word (chunk : List Nat) (g : Nat) : Nat :=
  chunk.getD (4 * g) 0 + (chunk.getD (4 * g + 1) 0) <<< 8 +
  (chunk.getD (4 * g + 2) 0) <<< 16 + (chunk.getD (4 * g + 3) 0) <<< 24

/-- One MD5 round `i` on state `(a, b, c, d)`. -/
def md5Round (chunk : List Nat) (i : Nat) : Nat × Nat × Nat × Nat → Nat × Nat × Nat × Nat :=
  fun (a, b, c, d) =>
    let (f, g) :=
      if i < 16 then ((b &&& c) ||| (not32 b &&& d), i)
      else if i < 32 then ((d &&& b) ||| (not32 d &&& c), (5 * i + 1) % 16)
      else if i < 48 then (b ^^^ c ^^^ d, (3 * i + 5) % 16)
      else (c ^^^ (b ||| not32 d), (7 * i) % 16)
    let sum := m32 (a + f + md5K.getD i 0 + md5Word chunk g)
    (d, m32 (b + rotl32 sum (md5S.getD i 0)), b, c)

/-- Run rounds `i, i+1, …` for `n` more steps. -/
def md5Rounds (chunk : List Nat) : Nat → Nat → Nat × Nat × Nat × Nat → Nat × Nat × Nat × Nat
  | 0, _, st => st
  | n + 1, i, st => md5Rounds chunk n (i + 1) (md5Round chunk i st)

/-- Process one 64-byte chunk into the running state. -/
def md5Chunk (st : Nat × Nat × Nat × Nat) (chunk : List Nat) : Nat × Nat × Nat × Nat :=
  let (a0, b0, c0, d0) := st
  let (a, b, c, d) := md5Rounds chunk 64 0 st
  (m32 (a0 + a), m32 (b0 + b), m32 (c0 + c), m32 (d0 + d))

/-- Process `n` chunks of 64 bytes (`n` is exactly `bytes.length / 64`). -/
def md5Chunks : Nat → List Nat → Nat × Nat × Nat × Nat → Nat × Nat × Nat × Nat
  | 0, _, st => st
  | n + 1, bytes, st => md5Chunks n (bytes.drop 64) (md5Chunk st (bytes.take 64))

/-- A 64-bit value as 8 little-endian bytes. -/
def le64 (n : Nat) : List Nat :=
  [n &&& 0xFF, (n >>> 8) &&& 0xFF, (n >>> 16) &&& 0xFF, (n >>> 24) &&& 0xFF,
   (n >>> 32) &&& 0xFF, (n >>> 40) &&& 0xFF, (n >>> 48) &&& 0xFF, (n >>> 56) &&& 0xFF]

/-- MD5 padding: `0x80`, zeros to 56 mod 64, then the bit length. -/
def md5Pad (msg : List Nat) : List Nat :=
  let withOne := msg ++ [0x80]
  let zeros := (64 - withOne.length % 64 + 56) % 64
  withOne ++ List.replicate zeros 0 ++ le64 ((8 * msg.length) % 2 ^ 64)

/-- Lowercase hex digit. -/
def hexDigit (n : Nat) : Char :=
  if n < 10 then Char.ofNat (48 + n) else Char.ofNat (87 + n)

/-- A 32-bit word as 8 lowercase hex characters, little-endian byte order. -/
def wordHex (w : Nat) : List Char :=
  [hexDigit (w / 16 % 16), hexDigit (w % 16),
   hexDigit (w >>> 8 / 16 % 16), hexDigit (w >>> 8 % 16),
   hexDigit (w >>> 16 / 16 % 16), hexDigit (w >>> 16 % 16),
   hexDigit (w >>> 24 / 16 % 16), hexDigit (w >>> 24 % 16)]

/-- `hashlib.md5(bytes).hexdigest()`. -/
def md5HexBytes (msg : List Nat) : String :=
  let padded := md5Pad msg
  let (a, b, c, d) :=
    md5Chunks (padded.length / 64) padded (0x67452301, 0xefcdab89, 0x98badcfe, 0x10325476)
  ⟨wordHex a ++ wordHex b ++ wordHex c ++ wordHex d⟩

/-- `hashlib.md5(s.encode()).hexdigest()`. -/
def md5Hex (s : String) : String := md5HexBytes (utf8Encode s)

/-! ## Python `str(...)` rendering (for f-strings and tag building) -/

/-- Decimal rendering of an integer. -/
def renderInt (i : Int) : String :=
  match i with
  | .ofNat n => ⟨Nat.toDigits 10 n⟩
  | .negSucc n => "-" ++ ⟨Nat.toDigits 10 (n + 1)⟩

/-- `str()` of an embedded JSON number.  A whole number renders as a Python
int; a non-integral value renders as `num/den` — an approximation of float
repr that no theorem below depends on. -/
def renderQNum (q : ℚ) : String :=
  if q.den = 1 then renderInt q.num
  else renderInt q.num ++ "/" ++ renderInt (Int.ofNat q.den)

/-- The single-quote character used by Python `repr` of strings. -/
def pyQuote : String := ⟨[Char.ofNat 39]⟩

/-- Python `repr(v)` down to depth `fuel` (string escaping omitted; the
fuel of 100 exceeds the nesting depth of any provider payload). -/
def pyReprFuel : Nat → PyVal → String
  | _, .pnone => "None"
  | _, .pbool true => "True"
  | _, .pbool false => "False"
  | _, .pnum q => renderQNum q
  | _, .pstr s => pyQuote ++ s ++ pyQuote
  | 0, _ => ""
  | n + 1, .plist xs => "[" ++ String.intercalate ", " (xs.map (pyReprFuel n)) ++ "]"
  | n + 1, .pdict kvs =>
    "\x7b" ++
      String.intercalate ", "
        (kvs.map (fun kv => pyQuote ++ kv.1 ++ pyQuote ++ ": " ++ pyReprFuel n kv.2)) ++
    "\x7d"

/-- Python `str(v)` / f-string interpolation of `v`. -/
def pyStr : PyVal → String
  | .pstr s => s
  | v => pyReprFuel 100 v

/-! ## `NYCParksScraper._extract_borough` -/

/-- Subscripting `v[0]`: first character of a string, head of a list;
`TypeError` for numbers and `None`, `KeyError` for a (string-keyed) dict.
(`IndexError` on an empty string/list is unreachable here: every call site
checks truthiness first; it is mapped to `keyError`.) -/
def pySubscriptZero : PyVal → Except PyErr PyVal
  | .pstr s =>
    match s.toList with
    | c :: _ => .ok (.pstr ⟨[c]⟩)
    | [] => .error .keyError
  | .plist (x :: _) => .ok x
  | .plist [] => .error .keyError
  | .pdict _ => .error .keyError
  | _ => .error .typeError

/-- The `parkids` first-character borough code map. -/
def boroughCodeMap : List (String × String) :=
  [("M", "Manhattan"), ("B", "Brooklyn"), ("Q", "Queens"),
   ("X", "Bronx"), ("R", "Staten Island")]

/-- The borough names searched, in order, inside the park name. -/
def boroughNames : List String :=
  ["Manhattan", "Brooklyn", "Queens", "Bronx", "Staten Island"]

/-- `NYCParksScraper._extract_borough`: direct `borough` field, then the
`parkids` code prefix, then a substring search over the park name.
`Except.error` models an uncaught exception on an ill-typed field. -/
def extractBorough (e : PyDict) : Except PyErr (Option String) := do
  let borough := pyGet e "borough"
  if truthy borough then
    let s ← pyAsStr borough
    return some (pyStrip s)
  else
    let parkids0 := pyOr (pyGet e "parkids") (pyGet e "parkid")
    let step2 : Option String ←
      if truthy parkids0 then
        let parkids1 :=
          match parkids0 with
          | .plist xs => xs.headD (.pstr "")
          | v => v
        if truthy parkids1 then do
          let c0 ← pySubscriptZero parkids1
          let cs ← pyAsStr c0
          let code := pyUpper cs
          pure ((boroughCodeMap.find? (fun kv => kv.1 = code)).map (fun kv => kv.2))
        else pure none
      else pure none
    match step2 with
    | some b => return some b
    | none =>
      let parkName := pyOr (pyOr (pyGet e "parknames") (pyGet e "park_name")) (pyGet e "location")
      if truthy parkName then do
        let pn ← pyAsStr parkName
        pure (boroughNames.find? (fun b => pyContains (pyLower pn) (pyLower b)))
      else
        pure none

/-! ## `EventCreate` (pydantic model) -/

/-- Pydantic v1 coercion to a required `str` field (`None` rejected;
numbers and bools coerce to their string form; lists and dicts are a
validation error). -/
def coerceReqStr : PyVal → Except PyErr String
  | .pstr s => .ok s
  | .pnum q => .ok (renderQNum q)
  | .pbool b => .ok (if b then "True" else "False")
  | _ => .error .validationError

/-- Pydantic v1 coercion to an `Optional[str]` field. -/
def coerceOptStr : PyVal → Except PyErr (Option String)
  | .pnone => .ok none
  | .pstr s => .ok (some s)
  | .pnum q => .ok (some (renderQNum q))
  | .pbool b => .ok (some (if b then "True" else "False"))
  | _ => .error .validationError

/-- Pydantic v1 `HttpUrl` acceptance, restricted to the checks the claims
exercise: an `http`/`https` scheme, a non-empty host, length ≤ 2083. -/
def isHttpUrl (u : String) : Bool :=
  (pyStartsWith u "http://" || pyStartsWith u "https://") && u.length ≤ 2083 &&
  !(((u.toList.drop (if pyStartsWith u "http://" then 7 else 8)).takeWhile
      (fun c => !(c = '/'))).isEmpty)

/-- An `Optional[HttpUrl]` field value. -/
def urlField : PyVal → Except PyErr (Option String)
  | .pnone => .ok none
  | .pstr u => if isHttpUrl u then .ok (some u) else .error .validationError
  | _ => .error .validationError

/-- Pydantic v1 coercion to an `Optional[float]` field. -/
def coerceOptFloat : PyVal → Except PyErr (Option ℚ)
  | .pnone => .ok none
  | .pnum q => .ok (some q)
  | .pbool b => .ok (some (if b then 1 else 0))
  | .pstr s =>
    match parsePyFloat s with
    | some q => .ok (some q)
    | none => .error .validationError
  | _ => .error .validationError

/-- An `Option ℚ` as the Python value the scrapers pass for a coordinate. -/
def optQToPyVal : Option ℚ → PyVal
  | some q => .pnum q
  | none => .pnone

/-- A validated `EventCreate` instance. -/
structure EventCreate where
  title : String
  description : Option String
  date_time : PyDateTime
  end_time : Option PyDateTime
  location_name : String
  location_address : Option String
  latitude : Option ℚ
  longitude : Option ℚ
  neighborhood : Option String
  category : EventCategory
  price_min : Int
  price_max : Option Int
  capacity : Option Int
  source : EventSource
  external_id : Option String
  external_url : Option String
  image_url : Option String
  tags : List String
  metadata : PyDict
deriving Repr

/-- `EventCreate(...)`: pydantic field validation in declaration order
(title length, `end_time` after `date_time`, coordinate ranges,
`price_min ≥ 0`, `price_max ≥ 0` plus the `validate_price_max` validator —
whose `if v` guard skips a zero maximum — positive capacity, URL fields).
Pydantic collects all field errors before raising; the embedding returns
the first, which fails construction in exactly the same cases. -/
def mkEventCreate (title description : PyVal) (date_time : PyDateTime)
    (end_time : Option PyDateTime) (location_name location_address : PyVal)
    (latitude longitude : PyVal) (neighborhood : PyVal) (category : EventCategory)
    (price_min : Int) (price_max : Option Int) (capacity : Option Int)
    (source : EventSource) (external_id external_url image_url : PyVal)
    (tags : List String) (metadata : PyDict) : Except PyErr EventCreate :=
  Except.bind (coerceReqStr title) fun t =>
  if ¬ (1 ≤ t.length ∧ t.length ≤ 255) then .error .validationError else
  Except.bind (coerceOptStr description) fun desc =>
  if (match end_time with
      | some t2 => decide (t2.key ≤ date_time.key)
      | none => false) then .error .validationError else
  Except.bind (coerceReqStr location_name) fun ln =>
  if ¬ (ln.length ≤ 255) then .error .validationError else
  Except.bind (coerceOptStr location_address) fun la =>
  if ¬ ((la.getD "").length ≤ 500) then .error .validationError else
  Except.bind (coerceOptFloat latitude) fun latQ =>
  if (match latQ with
      | some q => decide (¬ (-90 ≤ q ∧ q ≤ 90))
      | none => false) then .error .validationError else
  Except.bind (coerceOptFloat longitude) fun lngQ =>
  if (match lngQ with
      | some q => decide (¬ (-180 ≤ q ∧ q ≤ 180))
      | none => false) then .error .validationError else
  Except.bind (coerceOptStr neighborhood) fun nb =>
  if ¬ ((nb.getD "").length ≤ 100) then .error .validationError else
  if price_min < 0 then .error .validationError else
  if (match price_max with
      | some v => decide (v < 0 ∨ (¬ v = 0 ∧ v < price_min))
      | none => false) then .error .validationError else
  if (match capacity with
      | some c => decide (¬ (0 < c))
      | none => false) then .error .validationError else
  Except.bind (coerceOptStr external_id) fun eid =>
  if ¬ ((eid.getD "").length ≤ 255) then .error .validationError else
  Except.bind (urlField external_url) fun eu =>
  Except.bind (urlField image_url) fun iu =>
  .ok { title := t, description := desc, date_time := date_time, end_time := end_time,
        location_name := ln, location_address := la, latitude := latQ,
        longitude := lngQ, neighborhood := nb, category := category,
        price_min := price_min, price_max := price_max, capacity := capacity,
        source := source, external_id := eid, external_url := eu, image_url := iu,
        tags := tags, metadata := metadata }

/-! ## `NYCParksScraper.transform` -/

/-- `raw_event.get("title") or raw_event.get("name")`. -/
def parksTitleChain (e : PyDict) : PyVal := pyOr (pyGet e "title") (pyGet e "name")

/-- `raw_event.get("startdate") or raw_event.get("date") or raw_event.get("start_date")`. -/
def parksDateChain (e : PyDict) : PyVal :=
  pyOr (pyOr (pyGet e "startdate") (pyGet e "date")) (pyGet e "start_date")

/-- `raw_event.get("starttime") or raw_event.get("start_time") or raw_event.get("time")`. -/
def parksTimeChain (e : PyDict) : PyVal :=
  pyOr (pyOr (pyGet e "starttime") (pyGet e "start_time")) (pyGet e "time")

/-- `raw_event.get("id") or raw_event.get("event_id") or raw_event.get("uid")`. -/
def parksIdChain (e : PyDict) : PyVal :=
  pyOr (pyOr (pyGet e "id") (pyGet e "event_id")) (pyGet e "uid")

/-- The `location_name` fallback chain with its `"NYC Park"` default. -/
def parksLocChain (e : PyDict) : PyVal :=
  pyOr (pyOr (pyOr (pyGet e "parknames") (pyGet e "park_name")) (pyGet e "location"))
    (.pstr "NYC Park")

/-- `location_name` after the `isinstance(location_name, str)`-guarded strip. -/
def parksLocName (e : PyDict) : PyVal :=
  match parksLocChain e with
  | .pstr s => PyVal.pstr (pyStrip s)
  | v => v

/-- The `external_id` computation of `NYCParksScraper.transform`: a
provider id is prefixed; otherwise the MD5 digest of
`f"{title}_{date_str}_{location_name}"` truncated to 12 hex characters,
prefixed with the source name. -/
def nycParksExternalId (title : String) (dateV locNameV eventIdV : PyVal) : String :=
  if truthy eventIdV then "nyc_parks_" ++ pyStr eventIdV
  else
    "nyc_parks_" ++
      (⟨(md5Hex (title ++ "_" ++ pyStr dateV ++ "_" ++ pyStr locNameV)).toList.take 12⟩ : String)


/-- `NYCParksScraper.base_url`. -/
def nycParksBaseUrl : String := "https://www.nycgovparks.org"

/-- `NYCParksScraper.transform`: borough filter (skip when recognized and
outside `ALLOWED_BOROUGHS`), required title, `_parse_date`/`_parse_time`
for start and end, location/coordinate/description extraction, provider-id
or MD5-fallback external id, URL fixups, category mapping, tag and
metadata assembly, then `EventCreate` construction.
`.ok none` is the skip result; `.error` an uncaught exception. -/
def nycParksTransform (e : PyDict) : Except PyErr (Option EventCreate) :=
  Except.bind (extractBorough e) fun boroughOpt =>
  let bTruthy := match boroughOpt with | some s => !(s = "") | none => false
  let bVal := boroughOpt.getD ""
  if bTruthy && !(ALLOWED_BOROUGHS.contains bVal) then .ok none else
  if ¬ truthy (parksTitleChain e) then .ok none else
  Except.bind (pyAsStr (parksTitleChain e)) fun t0 =>
  let title := pyStrip t0
  let dateV := parksDateChain e
  let timeV := parksTimeChain e
  Except.bind (pyParseDate dateV) fun dOpt =>
  match dOpt with
  | none => .ok none
  | some d0 =>
  Except.bind
    (if truthy timeV then
      Except.bind (pyParseTime timeV) fun tp =>
      match tp with
      | some hm => dtReplaceTime d0 hm.1 hm.2
      | none => .ok d0
    else .ok d0) fun d1 =>
  let endDateV := pyOr (pyGet e "enddate") (pyGet e "end_date")
  let endTimeV := pyOr (pyGet e "endtime") (pyGet e "end_time")
  Except.bind
    (if truthy endDateV then
      Except.bind (pyParseDate endDateV) fun et =>
      match et with
      | some et0 =>
        if truthy endTimeV then
          Except.bind (pyParseTime endTimeV) fun tp =>
          match tp with
          | some hm => Except.bind (dtReplaceTime et0 hm.1 hm.2) fun et1 => .ok (some et1)
          | none => .ok (some et0)
        else .ok (some et0)
      | none => .ok none
    else if truthy endTimeV then
      Except.bind (pyParseTime endTimeV) fun tp =>
      match tp with
      | some hm =>
        Except.bind (dtReplaceTime d1 hm.1 hm.2) fun et1 =>
        .ok (some (if et1.key ≤ d1.key then dtAddOneDay et1 else et1))
      | none => .ok none
    else .ok none) fun endT0 =>
  let endT : Option PyDateTime :=
    match endT0 with
    | some et => if et.key ≤ d1.key then none else some et
    | none => none
  let locNameV := parksLocName e
  let addr0 := pyOr (pyGet e "address") (pyGet e "location_address")
  Except.bind
    (if truthy addr0 then
      Except.bind (pyAsStr addr0) fun s => .ok (PyVal.pstr (pyStrip s))
    else .ok addr0) fun addrV =>
  let latlng := extractCoordinates e
  let desc0 := pyOr (pyGet e "description") (pyGet e "desc")
  Except.bind
    (if truthy desc0 then
      Except.bind (pyAsStr desc0) fun s => .ok (PyVal.pstr (pyStrip s))
    else .ok desc0) fun descV =>
  let eventIdV := parksIdChain e
  let external_id := nycParksExternalId title dateV locNameV eventIdV
  let extUrl0 := pyOr (pyOr (pyGet e "url") (pyGet e "link")) (pyGet e "external_url")
  Except.bind
    (if truthy extUrl0 then
      Except.bind (pyAsStr extUrl0) fun u =>
      if ¬ pyStartsWith u "http" then
        .ok (PyVal.pstr
          (if pyStartsWith u "/" then nycParksBaseUrl ++ u else nycParksBaseUrl ++ "/" ++ u))
      else .ok (PyVal.pstr u)
    else .ok extUrl0) fun extUrlV =>
  let img0 := pyOr (pyOr (pyGet e "image") (pyGet e "image_url")) (pyGet e "photo")
  Except.bind
    (if truthy img0 then
      Except.bind (pyAsStr img0) fun u =>
      if ¬ pyStartsWith u "http" then
        .ok (PyVal.pstr
          (if pyStartsWith u "/" then nycParksBaseUrl ++ u else nycParksBaseUrl ++ "/" ++ u))
      else .ok (PyVal.pstr u)
    else .ok img0) fun imgV =>
  let rawCat0 := pyOr (pyOr (pyGet e "category") (pyGet e "type")) (pyGet e "categories")
  let rawCat :=
    match rawCat0 with
    | .plist xs => xs.headD .pnone
    | v => v
  Except.bind (pyMapCategoryParks rawCat) fun category =>
  let tags1 := ["free", "outdoor", "parks"] ++ (if bTruthy = true then [pyLower bVal] else [])
  let tags2 :=
    if truthy rawCat then
      let tag :=
        match rawCat with
        | .pstr s => pyStrip (pyLower s)
        | v => pyStr v
      if tags1.contains tag then tags1 else tags1 ++ [tag]
    else tags1
  let md1 : PyDict := if bTruthy = true then [("borough", PyVal.pstr bVal)] else []
  let md2 := md1 ++ (if truthy (pyGet e "contact") then [("contact", pyGet e "contact")] else [])
  let md3 :=
    md2 ++ (if truthy (pyGet e "requirements") then [("requirements", pyGet e "requirements")] else [])
  let md4 := md3 ++ (if truthy (pyGet e "age_group") then [("age_group", pyGet e "age_group")] else [])
  let nbV := match boroughOpt with | some s => PyVal.pstr s | none => PyVal.pnone
  Except.bind
    (mkEventCreate (.pstr title) descV d1 endT locNameV addrV
      (optQToPyVal latlng.1) (optQToPyVal latlng.2) nbV category
      0 (some 0) none .nyc_parks (.pstr external_id) extUrlV imgV tags2 md4) fun ev =>
  .ok (some ev)

/-! ## `TicketmasterScraper` -/

/-- `TICKETMASTER_SEGMENT_MAP`. -/
def TICKETMASTER_SEGMENT_MAP : List (String × EventCategory) :=
  [("Music", .nightlife), ("Sports", .fitness), ("Arts & Theatre", .culture),
   ("Film", .culture), ("Miscellaneous", .culture)]

/-- `TICKETMASTER_GENRE_MAP`. -/
def TICKETMASTER_GENRE_MAP : List (String × EventCategory) :=
  [("Rock", .nightlife), ("Pop", .nightlife), ("Hip-Hop/Rap", .nightlife),
   ("R&B", .nightlife), ("Electronic", .nightlife), ("Country", .nightlife),
   ("Jazz", .culture), ("Classical", .culture), ("Comedy", .culture),
   ("Theatre", .culture), ("Dance", .culture), ("Basketball", .fitness),
   ("Football", .fitness), ("Baseball", .fitness), ("Hockey", .fitness),
   ("Soccer", .fitness), ("Tennis", .fitness), ("Boxing", .fitness), ("MMA", .fitness)]

/-- Python dict-key membership `x in MAP` followed by the lookup; an
unhashable key (list/dict) raises `TypeError`, any other non-string key is
simply not a member. -/
def tableLookupPy (tbl : List (String × EventCategory)) :
    PyVal → Except PyErr (Option EventCategory)
  | .pstr s => .ok (lookupKey tbl s)
  | .plist _ => .error .typeError
  | .pdict _ => .error .typeError
  | _ => .ok none

/-- `TicketmasterScraper._extract_venue`. -/
def tmExtractVenue (e : PyDict) : Except PyErr PyVal := do
  let embedded := pyGetD e "_embedded" (.pdict [])
  let venues ← pyGetAttrD embedded "venues" (.plist [])
  if ¬ truthy venues then return .pdict []
  else pySubscriptZero venues

/-- The NYC city-name fragments checked by `_is_in_target_area`. -/
def tmNycAreas : List String := ["new york", "manhattan", "brooklyn", "nyc"]

/-- `TicketmasterScraper._is_in_target_area`: NY state plus an NYC-area
fragment in the city name or the first address line. -/
def tmIsInTargetArea (venue : PyVal) : Except PyErr Bool := do
  let city ← pyGetAttrD venue "city" (.pdict [])
  let cityName0 ← pyGetAttrD city "name" (.pstr "")
  let cn ← pyAsStr cityName0
  let cityName := pyLower cn
  let state ← pyGetAttrD venue "state" (.pdict [])
  let stateCode ← pyGetAttrD state "stateCode" (.pstr "")
  let isNY := match stateCode with | .pstr s => s = "NY" | _ => false
  if isNY = false then return false
  else if tmNycAreas.any (fun a => pyContains cityName a) then return true
  else do
    let address ← pyGetAttrD venue "address" (.pdict [])
    let line10 ← pyGetAttrD address "line1" (.pstr "")
    let l1 ← pyAsStr line10
    return tmNycAreas.any (fun a => pyContains (pyLower l1) a)

/-- Python `int(x)` on a value: floats truncate toward zero, numeric strings
parse (`ValueError` otherwise), bools are 0/1, anything else `TypeError`. -/
def pyIntOf : PyVal → Except PyErr Int
  | .pnum q => .ok (Int.tdiv q.num (Int.ofNat q.den))
  | .pbool b => .ok (if b then 1 else 0)
  | .pstr s =>
    match pyInt s with
    | some i => .ok i
    | none => .error .valueError
  | _ => .error .typeError

/-- `TicketmasterScraper._extract_price_range`. -/
def tmExtractPriceRange (e : PyDict) : Except PyErr (Int × Option Int) := do
  let priceRanges := pyGetD e "priceRanges" (.plist [])
  if ¬ truthy priceRanges then return (0, none)
  else do
    let price ← pySubscriptZero priceRanges
    let minV ← pyGetAttrD price "min" (.pnum 0)
    let minPrice ← pyIntOf minV
    let maxV ← pyGetAttrD price "max" .pnone
    match maxV with
    | .pnone => return (minPrice, none)
    | v => do
      let m ← pyIntOf v
      return (minPrice, some m)

/-- `TicketmasterScraper._map_category`: genre first, then segment,
defaulting to `CULTURE`. -/
def tmMapCategory (e : PyDict) : Except PyErr EventCategory := do
  let classifications := pyGetD e "classifications" (.plist [])
  if ¬ truthy classifications then return .culture
  else do
    let c ← pySubscriptZero classifications
    let genre ← pyGetAttrD c "genre" (.pdict [])
    let genreName ← pyGetAttrD genre "name" (.pstr "")
    match ← tableLookupPy TICKETMASTER_GENRE_MAP genreName with
    | some cat => return cat
    | none => do
      let segment ← pyGetAttrD c "segment" (.pdict [])
      let segName ← pyGetAttrD segment "name" (.pstr "")
      match ← tableLookupPy TICKETMASTER_SEGMENT_MAP segName with
      | some cat => return cat
      | none => return .culture

/-- A numeric sort key operand (`width`/`height`); non-numbers raise
`TypeError` when multiplied (string-by-int repetition is not modelled —
provider image records carry numeric sizes). -/
def asNumForKey : PyVal → Except PyErr ℚ
  | .pnum q => .ok q
  | .pbool b => .ok (if b then 1 else 0)
  | _ => .error .typeError

/-- The `sorted(...)` key `x.get("width", 0) * x.get("height", 0)`. -/
def tmImageKey (v : PyVal) : Except PyErr ℚ := do
  let w ← pyGetAttrD v "width" (.pnum 0)
  let h ← pyGetAttrD v "height" (.pnum 0)
  let a ← asNumForKey w
  let b ← asNumForKey h
  return a * b

/-- Stable descending insertion: a new element goes after all earlier
elements with an equal-or-larger key (matching Python's stable
`sorted(..., reverse=True)` on any stable-sort implementation). -/
def insertDesc (kx : ℚ × PyVal) : List (ℚ × PyVal) → List (ℚ × PyVal)
  | [] => [kx]
  | h :: t => if h.1 < kx.1 then kx :: h :: t else h :: insertDesc kx t

/-- Stable descending sort by precomputed key. -/
def stableSortDesc (l : List (ℚ × PyVal)) : List (ℚ × PyVal) :=
  l.foldl (fun acc kx => insertDesc kx acc) []

/-- Does an image record have the preferred `16_9` ratio? -/
def tmIsRatio169 (v : PyVal) : Bool :=
  match v with
  | .pdict kvs =>
    match pyGetD kvs "ratio" (.pstr "") with
    | .pstr s => s = "16_9"
    | _ => false
  | _ => false

/-- `TicketmasterScraper._extract_image_url`: sort by pixel count
descending, prefer a 16:9 image, else the largest. -/
def tmExtractImageUrl (e : PyDict) : Except PyErr PyVal := do
  let images := pyGetD e "images" (.plist [])
  if ¬ truthy images then return .pnone
  else
    match images with
    | .plist xs => do
      let keyed ← xs.mapM (fun x => do
        let k ← tmImageKey x
        pure (k, x))
      let sorted := stableSortDesc keyed
      match sorted.find? (fun kx => tmIsRatio169 kx.2) with
      | some kx => pyGetAttrD kx.2 "url" .pnone
      | none =>
        match sorted with
        | kx :: _ => pyGetAttrD kx.2 "url" .pnone
        | [] => return .pnone
    | .pstr _ => .error .attributeError
    | _ => .error .typeError

/-- Shallow Python `==` as used on `subGenre != genre` (scalar operands;
`True == 1` is honoured; deep container equality is never reached with a
string left operand). -/
def pyEqShallow : PyVal → PyVal → Bool
  | .pnone, .pnone => true
  | .pstr a, .pstr b => a = b
  | .pnum a, .pnum b => a = b
  | .pbool a, .pbool b => a = b
  | .pbool a, .pnum b => (if a then (1 : ℚ) else 0) = b
  | .pnum a, .pbool b => a = (if b then (1 : ℚ) else 0)
  | _, _ => false

/-- Exactly two digits. -/
def digit2 : List Char → Option (Nat × List Char)
  | a :: b :: rest =>
    if a.isDigit && b.isDigit then some (10 * digitVal a + digitVal b, rest) else none
  | _ => none

/-- An acceptable remaining negative-UTC-offset suffix for
`datetime.fromisoformat` (`+...` suffixes are already cut by the caller's
`split("+")[0]`); the offset itself does not alter the stored fields. -/
def isoTzOk : List Char → Bool
  | [] => true
  | '-' :: rest =>
    (match digit2 rest with
     | some (_, ':' :: r2) =>
       (match digit2 r2 with
        | some (_, []) => true
        | some (_, ':' :: r3) =>
          (match digit2 r3 with
           | some (_, []) => true
           | _ => false)
        | _ => false)
     | _ => false)
  | _ => false

/-- The fractional-seconds part of `fromisoformat`: exactly 3 or 6 digits,
scaled to microseconds. -/
def isoFrac (cs : List Char) : Option (Nat × List Char) :=
  let ds := cs.takeWhile Char.isDigit
  let v := ds.foldl (fun n c => 10 * n + digitVal c) 0
  if ds.length = 3 then some (v * 1000, cs.drop 3)
  else if ds.length = 6 then some (v, cs.drop 6)
  else none

/-- `datetime.fromisoformat` (pre-3.11 CPython grammar):
`YYYY-MM-DD[<sep>HH[:MM[:SS[.fff[fff]]]][offset]]`, two-digit time
components, with the `datetime` constructor's field validation. -/
def fromIso (s : String) : Option PyDateTime :=
  match s.toList with
  | y1 :: y2 :: y3 :: y4 :: '-' :: m1 :: m2 :: '-' :: d1 :: d2 :: rest =>
    if [y1, y2, y3, y4, m1, m2, d1, d2].all Char.isDigit then
      let y := digitVal y1 * 1000 + digitVal y2 * 100 + digitVal y3 * 10 + digitVal y4
      let mo := 10 * digitVal m1 + digitVal m2
      let d := 10 * digitVal d1 + digitVal d2
      let build := fun (h mi sec us : Nat) =>
        if datetimeFieldsValid y mo d h mi sec us then
          some (⟨y, mo, d, h, mi, sec, us⟩ : PyDateTime)
        else none
      match rest with
      | [] => build 0 0 0 0
      | _ :: t =>
        match digit2 t with
        | some (h, t2) =>
          (match t2 with
           | ':' :: t3 =>
             (match digit2 t3 with
              | some (mi, t4) =>
                (match t4 with
                 | ':' :: t5 =>
                   (match digit2 t5 with
                    | some (sec, t6) =>
                      (match t6 with
                       | '.' :: t7 =>
                         (match isoFrac t7 with
                          | some (us, t8) => if isoTzOk t8 then build h mi sec us else none
                          | none => none)
                       | _ => if isoTzOk t6 then build h mi sec 0 else none)
                    | none => none)
                 | _ => if isoTzOk t4 then build h mi 0 0 else none)
              | none => none)
           | _ => if isoTzOk t2 then build h 0 0 0 else none)
        | none => none
    else none
  | _ => none

/-- The date-parsing `try` block of `TicketmasterScraper.transform` on a
truthy raw date value: full ISO datetimes go through `fromisoformat` after
`replace("Z", "+00:00").split("+")[0]`; date-only strings go through
`strptime("%Y-%m-%d")` plus the optional `localTime`; `ValueError` and
`IndexError` are caught and become a skip (`none`), other exceptions
propagate. -/
def tmParseStartDate (start : PyVal) (dateStrV : PyVal) : Except PyErr (Option PyDateTime) :=
  match dateStrV with
  | .pstr ds =>
    if pyContains ds "T" then
      pure (fromIso ⟨(replaceChar 'Z' "+00:00".toList ds.toList).takeWhile
        (fun c => !(c = '+'))⟩)
    else
      (match strptime fmtYmd ds with
       | none => pure none
       | some d0 => do
         let localTimeV ← pyGetAttrD start "localTime" .pnone
         if truthy localTimeV then
           match localTimeV with
           | .pstr lt =>
             let parts := pySplit ':' lt
             (match pyInt (parts.getD 0 "") with
              | none => pure none
              | some h =>
                (match (if parts.length > 1 then pyInt (parts.getD 1 "") else some 0) with
                 | none => pure none
                 | some m =>
                   (match dtReplaceTime d0 h m with
                    | .ok d1 => pure (some d1)
                    | .error _ => pure none)))
           | _ => throw .attributeError
         else pure (some d0))
  | .pnum _ => throw .typeError
  | .pbool _ => throw .typeError
  | _ => throw .attributeError

/-- `TicketmasterScraper.transform`. -/
def tmTransform (e : PyDict) : Except PyErr (Option EventCreate) :=
  Except.bind (tmExtractVenue e) fun venue =>
  Except.bind
    (if truthy venue then
      Except.bind (tmIsInTargetArea venue) fun ia => .ok (!ia)
    else .ok false) fun skipArea =>
  if skipArea = true then .ok none else
  let nameV := pyGet e "name"
  if ¬ truthy nameV then .ok none else
  let dates := pyGetD e "dates" (.pdict [])
  Except.bind (pyGetAttrD dates "start" (.pdict [])) fun start =>
  Except.bind (pyGetAttrD start "dateTime" .pnone) fun dateTimeV =>
  Except.bind (pyGetAttrD start "localDate" .pnone) fun localDateV =>
  if ¬ truthy (pyOr dateTimeV localDateV) then .ok none else
  Except.bind (tmParseStartDate start (pyOr dateTimeV localDateV)) fun dOpt =>
  match dOpt with
  | none => .ok none
  | some date_time =>
  Except.bind
    (if truthy venue then pyGetAttrD venue "name" (.pstr "TBA") else .ok (.pstr "TBA"))
    fun venueName =>
  Except.bind
    (if truthy venue then pyGetAttrD venue "address" (.pdict []) else .ok (.pdict []))
    fun addressV =>
  Except.bind (pyGetAttrD addressV "line1" .pnone) fun locationAddress =>
  Except.bind
    (if truthy venue then pyGetAttrD venue "location" (.pdict []) else .ok (.pdict []))
    fun locationV =>
  Except.bind (pyGetAttrD locationV "latitude" .pnone) fun lat0 =>
  Except.bind (pyGetAttrD locationV "longitude" .pnone) fun lng0 =>
  let latV :=
    if truthy lat0 then
      match pyFloatOf lat0 with
      | .ok q => PyVal.pnum q
      | .error _ => PyVal.pnone
    else lat0
  let lngV :=
    if truthy lng0 then
      match pyFloatOf lng0 with
      | .ok q => PyVal.pnum q
      | .error _ => PyVal.pnone
    else lng0
  Except.bind
    (if truthy venue then pyGetAttrD venue "city" (.pdict []) else .ok (.pdict []))
    fun city =>
  Except.bind (pyGetAttrD city "name" (.pstr "")) fun cityName0 =>
  Except.bind (pyAsStr cityName0) fun cn =>
  let cnl := pyLower cn
  let neighborhood : PyVal :=
    if pyContains cnl "manhattan" || cnl = "new york" then .pstr "Manhattan"
    else if pyContains cnl "brooklyn" then .pstr "Brooklyn"
    else .pnone
  Except.bind (tmExtractPriceRange e) fun priceMM =>
  Except.bind (tmMapCategory e) fun category =>
  let description := pyOr (pyGet e "info") (pyGet e "pleaseNote")
  let externalUrl := pyGet e "url"
  Except.bind (tmExtractImageUrl e) fun imageUrl =>
  let eventId := pyGet e "id"
  match (if truthy eventId then some ("ticketmaster_" ++ pyStr eventId) else none) with
  | none => .ok none
  | some externalId =>
  let classifications := pyGetD e "classifications" (.plist [])
  Except.bind
    (if truthy classifications then
      Except.bind (pySubscriptZero classifications) fun c =>
      Except.bind (pyGetAttrD c "segment" (.pdict [])) fun seg =>
      Except.bind (pyGetAttrD seg "name" .pnone) fun segName =>
      Except.bind (pyGetAttrD c "genre" (.pdict [])) fun gen =>
      Except.bind (pyGetAttrD gen "name" .pnone) fun genName =>
      Except.bind (pyGetAttrD c "subGenre" (.pdict [])) fun sub =>
      Except.bind (pyGetAttrD sub "name" .pnone) fun subName =>
      Except.bind
        (if truthy segName then
          Except.bind (pyAsStr segName) fun s => .ok [pyLower s]
        else .ok []) fun t1 =>
      Except.bind
        (if truthy genName then
          Except.bind (pyAsStr genName) fun s => .ok (t1 ++ [pyLower s])
        else .ok t1) fun t2 =>
      Except.bind
        (if truthy subName && !(pyEqShallow subName genName) then
          Except.bind (pyAsStr subName) fun s => .ok (t2 ++ [pyLower s])
        else .ok t2) fun t3 =>
      .ok (t3, some (segName, genName))
    else .ok (([] : List String), none)) fun tagsAndCls =>
  let tags := tagsAndCls.1 ++
    (match neighborhood with | .pstr n => [pyLower n] | _ => [])
  Except.bind
    (if truthy venue then pyGetAttrD venue "id" .pnone else .ok PyVal.pnone) fun venueId =>
  let md0 : PyDict :=
    [("ticketmaster_id", eventId),
     ("segment", match tagsAndCls.2 with | some sg => sg.1 | none => .pnone),
     ("genre", match tagsAndCls.2 with | some sg => sg.2 | none => .pnone),
     ("venue_id", venueId)]
  let sales := pyGetD e "sales" (.pdict [])
  Except.bind (pyGetAttrD sales "public" (.pdict [])) fun publicSales =>
  Except.bind
    (if truthy publicSales then
      Except.bind (pyGetAttrD publicSales "startDateTime" .pnone) fun ss =>
      Except.bind (pyGetAttrD publicSales "endDateTime" .pnone) fun se =>
      .ok (md0 ++ [("sales_start", ss), ("sales_end", se)])
    else .ok md0) fun md =>
  Except.bind
    (mkEventCreate nameV description date_time none venueName locationAddress
      latV lngV neighborhood category priceMM.1 priceMM.2 none .ticketmaster
      (.pstr externalId) externalUrl imageUrl tags md) fun ev =>
  .ok (some ev)

/-! ## `NYCOpenDataScraper._map_category` -/

/-- `NYC_OPEN_DATA_CATEGORY_MAP`, in source insertion order. -/
def NYC_OPEN_DATA_CATEGORY_MAP : List (String × EventCategory) :=
  [("street fair", .culture), ("festival", .culture), ("parade", .culture),
   ("block party", .networking), ("farmers market", .food), ("market", .food),
   ("marathon", .fitness), ("race", .fitness), ("run", .fitness), ("walk", .fitness),
   ("concert", .nightlife), ("music", .nightlife), ("rally", .professional),
   ("protest", .professional)]

/-- `NYCOpenDataScraper._map_category`: substring lookup over `event_type`
first, then `event_name`, defaulting to `CULTURE`.  An ill-typed field
raises `AttributeError` at `.lower()`. -/
def nycOpenDataMapCategory (e : PyDict) : Except PyErr EventCategory := do
  let ets ← pyAsStr (pyGetD e "event_type" (.pstr ""))
  let eventType := pyStrip (pyLower ets)
  match (if eventType = "" then none else firstKeywordHit NYC_OPEN_DATA_CATEGORY_MAP eventType) with
  | some c => return c
  | none => do
    let ens ← pyAsStr (pyGetD e "event_name" (.pstr ""))
    let eventName := pyStrip (pyLower ens)
    match (if eventName = "" then none else firstKeywordHit NYC_OPEN_DATA_CATEGORY_MAP eventName) with
    | some c => return c
    | none => return .culture

/-! ## `NYCParksScraper.fetch`: the 30-day window filter

The claims concern the client-side filtering step of `fetch` (lines 74–95),
applied to the decoded JSON list; the HTTP retrieval itself is external.
Each list element is processed inside `try/except`: an exception (e.g.
`.get` on a non-dict element, an ill-typed date field) drops the element
and continues. -/

/-- Does the per-element loop body keep this element?  Kept iff its
start-date chain is truthy, parses, and lies in `[now, now + 30 days]`. -/
def nycParksFetchKeep (now cutoff : PyDateTime) (event : PyVal) : Bool :=
  match event with
  | .pdict kvs =>
    let dateV := parksDateChain kvs
    if ¬ truthy dateV then false
    else
      match pyParseDate dateV with
      | .ok (some d) => dtLe now d && dtLe d cutoff
      | .ok none => false
      | .error _ => false
  | _ => false

/-- The filtering loop of `NYCParksScraper.fetch` (cutoff fixed up front). -/
def nycParksFetchFilter (now : PyDateTime) : List PyVal → List PyVal
  | [] => []
  | e :: rest =>
    if nycParksFetchKeep now (dtAddDays now 30) e then
      e :: nycParksFetchFilter now rest
    else nycParksFetchFilter now rest

/-! ## `BaseScraper.load` (the idempotent upsert loader)

The persistence store is a list of rows of the `events` table; `id` is the
table's primary key.  Per-event persistence failures are injected through a
list of flags (`errs`): a flagged event's `try` block raises before any
write, as a network/database failure at the `select` does; the exception is
caught, counted as failed, and the loop continues. -/

/-- A stored row of the `events` table (key columns plus the upserted
payload and the loader-managed timestamps). -/
structure StoredEvent where
  id : Nat
  source : String
  external_id : Option String
  data : EventCreate
  created_at : Nat
  updated_at : Nat

/-- The upsert identity key of an event. -/
def evKey (ev : EventCreate) : String × Option String := (ev.source.value, ev.external_id)

/-- The identity key of a stored row. -/
def recKey (r : StoredEvent) : String × Option String := (r.source, r.external_id)

/-- `select ... .eq("source", ...).eq("external_id", ...)`, first row. -/
def findByKey (store : List StoredEvent) (k : String × Option String) : Option StoredEvent :=
  store.find? (fun r => recKey r = k)

/-- A fresh primary key for an insert. -/
def freshId (store : List StoredEvent) : Nat :=
  (store.map (fun r => r.id)).foldr Nat.max 0 + 1

/-- `update(event_data).eq("id", rid)`: rewrite the row's payload — the
update dict carries every mutable field including `source`/`external_id`
and `updated_at`, but not `created_at`. -/
def updateById (store : List StoredEvent) (rid : Nat) (ev : EventCreate) (now : Nat) :
    List StoredEvent :=
  store.map (fun r =>
    if r.id = rid then
      { r with source := ev.source.value, external_id := ev.external_id,
               data := ev, updated_at := now }
    else r)

/-- The `(new_count, updated_count, failed_count)` accumulator. -/
structure LoadCounts where
  newCount : Nat
  updatedCount : Nat
  failedCount : Nat
deriving Repr, DecidableEq

/-- One iteration of the loader's per-event loop. -/
def loadStep (dryRun avail : Bool) (now : Nat) (err : Bool)
    (acc : LoadCounts × List StoredEvent) (ev : EventCreate) : LoadCounts × List StoredEvent :=
  let (c, store) := acc
  if err then ({ c with failedCount := c.failedCount + 1 }, store)
  else if dryRun then
    if avail then
      match findByKey store (evKey ev) with
      | some _ => ({ c with updatedCount := c.updatedCount + 1 }, store)
      | none => ({ c with newCount := c.newCount + 1 }, store)
    else ({ c with newCount := c.newCount + 1 }, store)
  else
    match findByKey store (evKey ev) with
    | some r =>
      ({ c with updatedCount := c.updatedCount + 1 }, updateById store r.id ev now)
    | none =>
      ({ c with newCount := c.newCount + 1 },
       store ++ [{ id := freshId store, source := ev.source.value,
                   external_id := ev.external_id, data := ev,
                   created_at := now, updated_at := now }])

/-- The loader's per-event loop. -/
def loadLoop (dryRun avail : Bool) (now : Nat) :
    List Bool → List EventCreate → LoadCounts × List StoredEvent → LoadCounts × List StoredEvent
  | _, [], acc => acc
  | errs, ev :: rest, acc =>
    loadLoop dryRun avail now errs.tail rest (loadStep dryRun avail now (errs.headD false) acc ev)

/-- `BaseScraper.load`: with no admin client and no dry run, every event is
failed up front; otherwise upsert each event by `(source, external_id)`. -/
def load (dryRun avail : Bool) (errs : List Bool) (now : Nat)
    (events : List EventCreate) (store : List StoredEvent) : LoadCounts × List StoredEvent :=
  if avail = false ∧ dryRun = false then (⟨0, 0, events.length⟩, store)
  else loadLoop dryRun avail now errs events (⟨0, 0, 0⟩, store)

/-! ## `BaseScraper.run` and the batch runners -/

/-- `ScraperResult`. -/
structure ScraperResult where
  source : String
  events_found : Nat
  events_new : Nat
  events_updated : Nat
  events_failed : Nat
  started_at : Nat
  completed_at : Nat
  error_message : Option String
deriving Repr, DecidableEq

/-- The per-item transform loop of `run`: collect successful transforms in
order, count per-item exceptions as transform failures, pass over skips. -/
def transformLoop (tr : PyVal → Except PyErr (Option EventCreate)) :
    List PyVal → List EventCreate × Nat
  | [] => ([], 0)
  | raw :: rest =>
    let (evs, failed) := transformLoop tr rest
    match tr raw with
    | .ok (some ev) => (ev :: evs, failed)
    | .ok none => (evs, failed)
    | .error _ => (evs, failed + 1)

/-- `BaseScraper.run`: fetch, transform each raw item, load, aggregate.  A
fetch failure is caught by the outer `try`, producing zero counts and the
error message; transform failures are per-item; `load` never raises. -/
def runScraper (sourceName : String) (dryRun avail : Bool) (errs : List Bool)
    (fetchR : Except String (List PyVal)) (tr : PyVal → Except PyErr (Option EventCreate))
    (startT endT now : Nat) (store : List StoredEvent) : ScraperResult × List StoredEvent :=
  match fetchR with
  | .error msg =>
    ({ source := sourceName, events_found := 0, events_new := 0, events_updated := 0,
       events_failed := 0, started_at := startT, completed_at := endT,
       error_message := some msg }, store)
  | .ok raws =>
    let (transformed, tFailed) := transformLoop tr raws
    let (c, store1) := load dryRun avail errs now transformed store
    ({ source := sourceName, events_found := raws.length, events_new := c.newCount,
       events_updated := c.updatedCount, events_failed := tFailed + c.failedCount,
       started_at := startT, completed_at := endT, error_message := none }, store1)

/-- The synthesized failure result `run_all` builds when a scraper raises. -/
def synthFailure (name msg : String) (t : Nat) : ScraperResult :=
  { source := name, events_found := 0, events_new := 0, events_updated := 0,
    events_failed := 0, started_at := t, completed_at := t, error_message := some msg }

/-- `cli.run_all` / `scrape_all`: run every adapter in order inside
`try/except`, appending its real result or a synthesized failure result;
an adapter is represented by its name and the outcome of running it. -/
def runAll (now : Nat) : List (String × Except String ScraperResult) → List ScraperResult
  | [] => []
  | (_, .ok r) :: rest => r :: runAll now rest
  | (name, .error msg) :: rest => synthFailure name msg now :: runAll now rest

/-! ## Proof infrastructure -/

/-- Inversion for a successful `Except.bind`. -/
theorem ebind_ok {α β : Type} {x : Except PyErr α} {f : α → Except PyErr β} {b : β} :
    Except.bind x f = .ok b ↔ ∃ a, x = .ok a ∧ f a = .ok b := by
  cases x <;> simp [Except.bind]

/-- Inversion for a guard that throws in its then-branch. -/
theorem iteErr_ok {β : Type} {c : Prop} [Decidable c] {e : PyErr} {y : Except PyErr β} {b : β} :
    (if c then Except.error e else y) = .ok b ↔ ¬ c ∧ y = .ok b := by
  split <;> simp_all

/-- `Except.bind` on a success, as a rewrite. -/
theorem ebind_okE {α β : Type} (a : α) (f : α → Except PyErr β) :
    Except.bind (Except.ok a) f = f a := rfl

/-- `pyAsStr` on a string, as a rewrite. -/
theorem pyAsStr_pstr (s : String) : pyAsStr (.pstr s) = .ok s := rfl

/-- Everything a successful `EventCreate` construction guarantees about its
price fields: they are the passed values, the minimum is non-negative, and
a present maximum is non-negative and (unless zero) not below the minimum. -/
theorem mkEventCreate_ok_price {title description : PyVal} {dt : PyDateTime}
    {et : Option PyDateTime} {lnv lav latv lngv nbv : PyVal} {cat : EventCategory}
    {pmin : Int} {pmax : Option Int} {cap : Option Int} {src : EventSource}
    {eidv euv iuv : PyVal} {tags : List String} {md : PyDict} {ev : EventCreate}
    (h : mkEventCreate title description dt et lnv lav latv lngv nbv cat pmin pmax cap
        src eidv euv iuv tags md = .ok ev) :
    ev.price_min = pmin ∧ ev.price_max = pmax ∧ ¬ pmin < 0 ∧
      (∀ v : Int, pmax = some v → ¬ v < 0 ∧ (¬ v = 0 → ¬ v < pmin)) := by
  simp only [mkEventCreate, ebind_ok, iteErr_ok, Except.ok.injEq] at h
  obtain ⟨t, ht, hlen, desc, hdesc, het, lnn, hln, hlnlen, laa, hla, hlalen, latQ, hlat,
    hlatr, lngQ, hlng, hlngr, nbb, hnb, hnblen, hpmin, hpmax, hcap, eidd, heid, heidlen,
    euu, heu, iuu, hiu, hev⟩ := h
  subst hev
  refine ⟨rfl, rfl, hpmin, fun v hv => ?_⟩
  subst hv
  simp at hpmax
  obtain ⟨h1, h2⟩ := hpmax
  exact ⟨by omega, fun h0 => by have := h2 h0; omega⟩

/-! ## Claim theorems -/

/-- C4: if `fetch()` raises, `run()` returns a `RunResult` whose found /
new / updated / failed counts are all zero and whose error message is the
fetch error's message, and the persistence store is untouched (transform
and load never run). -/
theorem run_fetch_failure_zero_counts (sourceName msg : String) (dryRun avail : Bool)
    (errs : List Bool) (tr : PyVal → Except PyErr (Option EventCreate))
    (startT endT now : Nat) (store : List StoredEvent) :
    runScraper sourceName dryRun avail errs (.error msg) tr startT endT now store =
      ({ source := sourceName, events_found := 0, events_new := 0, events_updated := 0,
         events_failed := 0, started_at := startT, completed_at := endT,
         error_message := some msg }, store) := rfl

/-- C5: the "all sources" batch over K adapters returns exactly K results,
one per adapter in order — the real result of each completing adapter and
a synthesized failure result (carrying the raised error's message) for each
adapter that raises; no failure prevents later adapters from contributing. -/
theorem run_all_one_result_per_adapter (now : Nat)
    (adapters : List (String × Except String ScraperResult)) :
    runAll now adapters =
      adapters.map (fun p =>
        match p.2 with
        | .ok r => r
        | .error msg => synthFailure p.1 msg now) ∧
    (runAll now adapters).length = adapters.length := by
  have hmap : runAll now adapters =
      adapters.map (fun p =>
        match p.2 with
        | .ok r => r
        | .error msg => synthFailure p.1 msg now) := by
    induction adapters with
    | nil => rfl
    | cons a rest ih =>
      obtain ⟨name, out⟩ := a
      cases out <;> simp [runAll, ih]
  exact ⟨hmap, by rw [hmap]; simp⟩

/-- Each loader iteration settles exactly one event into exactly one bucket. -/
theorem loadStep_total (dryRun avail : Bool) (now : Nat) (err : Bool)
    (acc : LoadCounts × List StoredEvent) (ev : EventCreate) :
    ((loadStep dryRun avail now err acc ev).1).newCount +
      ((loadStep dryRun avail now err acc ev).1).updatedCount +
      ((loadStep dryRun avail now err acc ev).1).failedCount =
    acc.1.newCount + acc.1.updatedCount + acc.1.failedCount + 1 := by
  obtain ⟨c, store⟩ := acc
  simp only [loadStep]
  repeat' split
  all_goals simp +arith

/-- The loader loop adds one bucketed event per input event. -/
theorem loadLoop_total (dryRun avail : Bool) (now : Nat) :
    ∀ (events : List EventCreate) (errs : List Bool) (acc : LoadCounts × List StoredEvent),
    ((loadLoop dryRun avail now errs events acc).1).newCount +
      ((loadLoop dryRun avail now errs events acc).1).updatedCount +
      ((loadLoop dryRun avail now errs events acc).1).failedCount =
    acc.1.newCount + acc.1.updatedCount + acc.1.failedCount + events.length := by
  intro events
  induction events with
  | nil => intro errs acc; simp [loadLoop]
  | cons ev rest ih =>
    intro errs acc
    simp only [loadLoop, ih, loadStep_total, List.length_cons]
    omega

/-- C10: for every input list — dry-run or not, with or without a
persistence handle, under any injected per-event failures — `load` returns
counts (new, updated, failed) that are non-negative (they live in `ℕ`) and
sum to the number of input events: every event lands in exactly one bucket. -/
theorem load_counts_partition (dryRun avail : Bool) (errs : List Bool) (now : Nat)
    (events : List EventCreate) (store : List StoredEvent) :
    ((load dryRun avail errs now events store).1).newCount +
      ((load dryRun avail errs now events store).1).updatedCount +
      ((load dryRun avail errs now events store).1).failedCount = events.length := by
  unfold load
  split
  · simp
  · simpa using loadLoop_total dryRun avail now events errs (⟨0, 0, 0⟩, store)

/-- C7 counterexample: constructing an event with `price_min = 50` and
`price_max = 30` raises a validation error — the maximum is not coerced to
null and no event is produced. -/
theorem price_max_below_min_raises :
    mkEventCreate (.pstr "Concert") .pnone ⟨2024, 10, 1, 19, 0, 0, 0⟩ none (.pstr "Venue")
      .pnone .pnone .pnone .pnone .culture 50 (some 30) none .manual .pnone .pnone .pnone
      [] [] = .error .validationError := rfl

/-- C7 (amended): a present, nonzero price maximum below the price minimum
makes `EventCreate` construction fail with a validation error (it is not
treated as absent); any successfully constructed event carries the given
prices with `price_min ≥ 0`. -/
theorem price_max_below_min_fails_construction
    (title description : PyVal) (dt : PyDateTime) (et : Option PyDateTime)
    (lnv lav latv lngv nbv : PyVal) (cat : EventCategory)
    (pmin : Int) (pmax : Option Int) (cap : Option Int) (src : EventSource)
    (eidv euv iuv : PyVal) (tags : List String) (md : PyDict) :
    (∀ v : Int, pmax = some v → ¬ v = 0 → v < pmin →
      ∃ err, mkEventCreate title description dt et lnv lav latv lngv nbv cat pmin pmax cap
          src eidv euv iuv tags md = .error err) ∧
    (∀ ev, mkEventCreate title description dt et lnv lav latv lngv nbv cat pmin pmax cap
        src eidv euv iuv tags md = .ok ev →
      ev.price_min = pmin ∧ 0 ≤ ev.price_min ∧ ev.price_max = pmax) := by
  constructor
  · intro v hv h0 hlt
    cases hres : mkEventCreate title description dt et lnv lav latv lngv nbv cat pmin pmax
        cap src eidv euv iuv tags md with
    | error e => exact ⟨e, rfl⟩
    | ok ev =>
      exfalso
      obtain ⟨-, -, -, hall⟩ := mkEventCreate_ok_price hres
      obtain ⟨-, h2⟩ := hall v hv
      exact h2 h0 hlt
  · intro ev hres
    obtain ⟨h1, h2, h3, -⟩ := mkEventCreate_ok_price hres
    exact ⟨h1, by omega, h2⟩

/-- C7 witness: the amended theorem applied at a concrete construction
(`price_min = 50`, `price_max = 30`). -/
theorem price_max_below_min_fails_construction_witness :
    ∃ err, mkEventCreate (.pstr "Concert") .pnone ⟨2024, 10, 1, 19, 0, 0, 0⟩ none
      (.pstr "Venue") .pnone .pnone .pnone .pnone .culture 50 (some 30) none .manual
      .pnone .pnone .pnone [] [] = .error err :=
  (price_max_below_min_fails_construction (.pstr "Concert") .pnone ⟨2024, 10, 1, 19, 0, 0, 0⟩
    none (.pstr "Venue") .pnone .pnone .pnone .pnone .culture 50 (some 30) none .manual
    .pnone .pnone .pnone [] []).1 30 rfl (by decide) (by decide)

/-- `firstSome` returns the value of the first hit when all earlier
candidates miss. -/
theorem firstSome_of_hit {α β : Type} (f : α → Option β) (dflt : α) :
    ∀ (l : List α) (i : Nat), i < l.length → ∀ b : β, f (l.getD i dflt) = some b →
      (∀ j, j < i → f (l.getD j dflt) = none) → firstSome f l = some b := by
  intro l
  induction l with
  | nil => intro i hi; simp at hi
  | cons a t ih =>
    intro i hi b hsucc hfail
    match i with
    | 0 =>
      simp only [List.getD_cons_zero] at hsucc
      simp [firstSome, hsucc]
    | i + 1 =>
      have h0 : f a = none := by simpa using hfail 0 (by omega)
      simp only [firstSome, h0]
      exact ih i (by simpa using hi) b (by simpa using hsucc)
        (fun j hj => by simpa using hfail (j + 1) (by omega))

/-- `firstSome` misses when every candidate misses. -/
theorem firstSome_of_all_none {α β : Type} (f : α → Option β) :
    ∀ l : List α, (∀ a ∈ l, f a = none) → firstSome f l = none := by
  intro l
  induction l with
  | nil => intro _; rfl
  | cons a t ih =>
    intro h
    simp only [firstSome, h a (by simp)]
    exact ih (fun x hx => h x (by simp [hx]))

/-- C8: `_parse_date` tries its format patterns in order and returns the
first successful parse — each supported literal format parses to the
corresponding instant, a string matching no pattern yields `none` (the
skip sentinel, not an exception), and in general a format's success is
returned exactly when every earlier format fails. -/
theorem parks_parse_date_ordered_fallback :
    (parseDateStr "2024-01-15" = some ⟨2024, 1, 15, 0, 0, 0, 0⟩ ∧
     parseDateStr "2024-01-15T10:00:00" = some ⟨2024, 1, 15, 10, 0, 0, 0⟩ ∧
     parseDateStr "01/15/2024" = some ⟨2024, 1, 15, 0, 0, 0, 0⟩ ∧
     parseDateStr "not-a-date" = none) ∧
    (∀ (s : String) (d : PyDateTime) (i : Nat), i < nycParksDateFormats.length →
      strptime (nycParksDateFormats.getD i []) s = some d →
      (∀ j, j < i → strptime (nycParksDateFormats.getD j []) s = none) →
      parseDateStr s = some d) ∧
    (∀ s : String, (∀ fmt ∈ nycParksDateFormats, strptime fmt s = none) →
      parseDateStr s = none) := by
  refine ⟨⟨by decide, by decide, by decide, by decide⟩, ?_, ?_⟩
  · intro s d i hi hsucc hfail
    exact firstSome_of_hit (fun fmt => strptime fmt s) [] nycParksDateFormats i hi d hsucc hfail
  · intro s hall
    exact firstSome_of_all_none (fun fmt => strptime fmt s) nycParksDateFormats hall

/-- C8 witness: the ordered-fallback clause applied at `"01/15/2024"`,
which only the last format accepts. -/
theorem parks_parse_date_ordered_fallback_witness :
    parseDateStr "01/15/2024" = some ⟨2024, 1, 15, 0, 0, 0, 0⟩ :=
  parks_parse_date_ordered_fallback.2.1 "01/15/2024" ⟨2024, 1, 15, 0, 0, 0, 0⟩ 4
    (by decide) (by decide)
    (fun j hj => by
      match j, hj with
      | 0, _ => decide
      | 1, _ => decide
      | 2, _ => decide
      | 3, _ => decide)

/-- For every entry of the parks keyword table, looking its own keyword up
by first-substring-match returns that entry: no earlier keyword is a
substring of a later one, so the direct-lookup shortcut in `_map_category`
agrees with first-match-wins. -/
theorem parks_keyword_first_hit :
    ∀ kv ∈ NYC_PARKS_CATEGORY_MAP, firstKeywordHit NYC_PARKS_CATEGORY_MAP kv.1 = some kv.2 := by
  decide

/-- An empty-string guard in front of a keyword scan is redundant when no
keyword matches the empty string. -/
theorem if_empty_keyword_hit (tbl : List (String × EventCategory))
    (hemp : firstKeywordHit tbl "" = none) (t : String) :
    (if t = "" then none else firstKeywordHit tbl t) = firstKeywordHit tbl t := by
  by_cases h : t = "" <;> simp [h, hemp]

/-- C9: both category mappers are total functions of the input text that
perform case-insensitive keyword lookup in table order — the first
matching keyword wins — and fall back to the adapter's default category
(`OUTDOOR` for the parks adapter, `CULTURE` for the open-data adapter,
which scans `event_type` and then `event_name`). -/
theorem category_mapper_first_keyword_wins :
    (∀ s : Option String,
      nycParksMapCategory s =
        match s with
        | none => .outdoor
        | some str =>
          match firstKeywordHit NYC_PARKS_CATEGORY_MAP (pyStrip (pyLower str)) with
          | some c => c
          | none => .outdoor) ∧
    (∀ (e : PyDict) (ts ns : String),
      pyGetD e "event_type" (.pstr "") = .pstr ts →
      pyGetD e "event_name" (.pstr "") = .pstr ns →
      nycOpenDataMapCategory e =
        .ok (match firstKeywordHit NYC_OPEN_DATA_CATEGORY_MAP (pyStrip (pyLower ts)) with
          | some c => c
          | none =>
            match firstKeywordHit NYC_OPEN_DATA_CATEGORY_MAP (pyStrip (pyLower ns)) with
            | some c => c
            | none => .culture)) := by
  constructor
  · intro s
    cases s with
    | none => rfl
    | some str =>
      by_cases h0 : str = ""
      · subst h0; decide
      · unfold nycParksMapCategory
        simp only [if_neg h0]
        cases hL : lookupKey NYC_PARKS_CATEGORY_MAP (pyStrip (pyLower str)) with
        | some c =>
          have hfk : firstKeywordHit NYC_PARKS_CATEGORY_MAP (pyStrip (pyLower str)) =
              some c := by
            unfold lookupKey at hL
            split at hL
            · next kv heq =>
              injection hL with h2
              subst h2
              have hmem := List.mem_of_find?_eq_some heq
              have hpred := List.find?_some heq
              simp only [decide_eq_true_eq] at hpred
              rw [← hpred]
              exact parks_keyword_first_hit kv hmem
            · cases hL
          rw [hfk]
        | none => rfl
  · intro e ts ns hts hns
    simp only [nycOpenDataMapCategory, hts, hns, pyAsStr, Bind.bind, Except.bind,
      if_empty_keyword_hit NYC_OPEN_DATA_CATEGORY_MAP (by decide)]
    cases hX : firstKeywordHit NYC_OPEN_DATA_CATEGORY_MAP (pyStrip (pyLower ts)) with
    | some c => rfl
    | none =>
      cases hY : firstKeywordHit NYC_OPEN_DATA_CATEGORY_MAP (pyStrip (pyLower ns)) <;> rfl

/-- C9 witness: the open-data clause applied to a concrete raw item whose
`event_type` is `"Annual Street Festival"` (keyword `festival` → CULTURE). -/
theorem category_mapper_first_keyword_wins_witness :
    nycOpenDataMapCategory
      [("event_type", .pstr "Annual Street Festival"), ("event_name", .pstr "X")] =
      .ok .culture := by
  have h := category_mapper_first_keyword_wins.2
    [("event_type", .pstr "Annual Street Festival"), ("event_name", .pstr "X")]
    "Annual Street Festival" "X" rfl rfl
  rw [h]
  rfl

/-- The spec's end-to-end example item: region `Queens`, start inside the
30-day window of `2024-09-25`. -/
def specQueensItem : PyDict :=
  [("title", .pstr "Fall Festival"), ("startdate", .pstr "2024-10-01T18:00:00"),
   ("enddate", .pstr "2024-10-01T17:00:00"), ("borough", .pstr "Queens")]

/-- The same item with no region signal at all. -/
def specNoRegionItem : PyDict :=
  [("title", .pstr "Fall Festival"), ("startdate", .pstr "2024-10-01T18:00:00")]

set_option maxRecDepth 100000 in
/-- C2 counterexample: the parks adapter's fetch filter does *not* exclude
an item whose recognized borough (`Queens`) is outside the allowed set —
the item survives fetch (so transform does get invoked on it); the claimed
exclusion-at-fetch is false on the code. -/
theorem queens_item_survives_fetch :
    nycParksFetchFilter ⟨2024, 9, 25, 0, 0, 0, 0⟩ [.pdict specQueensItem] =
      [.pdict specQueensItem] ∧
    extractBorough specQueensItem = .ok (some "Queens") ∧
    ¬ "Queens" ∈ ALLOWED_BOROUGHS :=
  ⟨rfl, rfl, by decide⟩

set_option maxRecDepth 200000 in
/-- C2 (amended): for the parks adapter the region policy is enforced in
`transform`, not `fetch` — `fetch`'s client-side filter is exactly the
30-day date-window filter (region plays no part in it), `transform`
returns the skip result for every item whose recognized borough is outside
{Manhattan, Brooklyn}, and an item with no region signal is retained by
both stages (the concrete no-region item passes fetch and transforms
successfully). -/
theorem region_filtering_happens_in_transform :
    (∀ (now : PyDateTime) (evs : List PyVal),
      nycParksFetchFilter now evs = evs.filter (nycParksFetchKeep now (dtAddDays now 30))) ∧
    (∀ (e : PyDict) (b : String), extractBorough e = .ok (some b) → ¬ b = "" →
      ¬ b ∈ ALLOWED_BOROUGHS → nycParksTransform e = .ok none) ∧
    (nycParksFetchFilter ⟨2024, 9, 25, 0, 0, 0, 0⟩ [.pdict specNoRegionItem] =
        [.pdict specNoRegionItem] ∧
      extractBorough specNoRegionItem = .ok none ∧
      ∃ ev, nycParksTransform specNoRegionItem = .ok (some ev)) := by
  refine ⟨?_, ?_, rfl, rfl, ⟨_, rfl⟩⟩
  · intro now evs
    induction evs with
    | nil => rfl
    | cons e rest ih => by_cases h : nycParksFetchKeep now (dtAddDays now 30) e = true <;>
        simp [nycParksFetchFilter, h, ih]
  · intro e b hb hne hni
    simp only [nycParksTransform, hb, ebind_okE]
    have hc : (!decide (b = "") && !ALLOWED_BOROUGHS.contains ((some b).getD "")) = true := by
      simp [ALLOWED_BOROUGHS] at hni
      simp [hne, hni.1, hni.2, ALLOWED_BOROUGHS]
    rw [if_pos hc]

/-- C2 witness: the amended skip-at-transform clause applied to the
concrete Queens item. -/
theorem region_filtering_happens_in_transform_witness :
    nycParksTransform specQueensItem = .ok none :=
  region_filtering_happens_in_transform.2.1 specQueensItem "Queens" rfl
    (by decide) (by decide)

set_option maxRecDepth 100000 in
/-- C3 counterexample: a raw item whose `title` field is the number 5 makes
the parks transform raise (`title.strip()` on a non-string raises
`AttributeError`, which `run` then counts as a per-item transform failure)
— malformed input is not always a skip. -/
theorem int_title_raises_in_transform :
    nycParksTransform [("title", .pnum 5), ("startdate", .pstr "2024-10-01")] =
      .error .attributeError := rfl



/-- C3 (amended): a raw item missing a required field is an intentional
skip, never an exception — for the parks transform, a falsy title chain
yields `None`, as does an unparseable (or falsy) start-date chain once a
string title is present; for the Ticketmaster transform, on any item that
is not skipped for its area (venue extraction succeeds and a present venue
lies in the target area), a falsy `name` yields `None`, as does a falsy or
unparseable start date.  (Ill-typed fields can still raise — see the
counterexample — and `run` counts those as per-item transform
failures.) -/
theorem missing_required_field_skips :
    (∀ (e : PyDict) (bOpt : Option String), extractBorough e = .ok bOpt →
      ¬ truthy (parksTitleChain e) → nycParksTransform e = .ok none) ∧
    (∀ (e : PyDict) (bOpt : Option String) (t : String), extractBorough e = .ok bOpt →
      parksTitleChain e = .pstr t → ¬ t = "" →
      pyParseDate (parksDateChain e) = .ok none → nycParksTransform e = .ok none) ∧
    (∀ (e : PyDict) (v : PyVal), tmExtractVenue e = .ok v →
      (truthy v = true → tmIsInTargetArea v = .ok true) →
      ¬ truthy (pyGet e "name") → tmTransform e = .ok none) ∧
    (∀ (e : PyDict) (v startV dtV ldV : PyVal), tmExtractVenue e = .ok v →
      (truthy v = true → tmIsInTargetArea v = .ok true) →
      truthy (pyGet e "name") →
      pyGetAttrD (pyGetD e "dates" (.pdict [])) "start" (.pdict []) = .ok startV →
      pyGetAttrD startV "dateTime" .pnone = .ok dtV →
      pyGetAttrD startV "localDate" .pnone = .ok ldV →
      (¬ truthy (pyOr dtV ldV) ∨ tmParseStartDate startV (pyOr dtV ldV) = .ok none) →
      tmTransform e = .ok none) := by
  refine ⟨?_, ?_, ?_, ?_⟩
  · intro e bOpt hb ht
    simp only [nycParksTransform, hb, ebind_okE]
    split
    all_goals rfl
  · intro e bOpt t hb htc hne hd
    simp only [nycParksTransform, hb, htc, hd, ebind_okE, pyAsStr_pstr]
    split
    all_goals first
      | rfl
      | (split <;> rfl)
  · intro e v hv hia hn
    simp only [tmTransform, hv, ebind_okE]
    by_cases hvt : truthy v = true
    · rw [if_pos hvt]
      simp only [hia hvt, ebind_okE, Bool.not_true]
      rw [if_neg Bool.false_ne_true, if_pos hn]
    · rw [if_neg hvt]
      simp only [ebind_okE]
      rw [if_neg Bool.false_ne_true, if_pos hn]
  · intro e v startV dtV ldV hv hia hn hstart hdt hld hdate
    simp only [tmTransform, hv, hstart, hdt, hld, ebind_okE]
    by_cases hvt : truthy v = true
    · rw [if_pos hvt]
      simp only [hia hvt, ebind_okE, Bool.not_true]
      rw [if_neg Bool.false_ne_true]
      rw [if_neg (by simp [hn])]
      rcases hdate with hfy | hp
      · rw [if_pos hfy]
      · by_cases hfy : truthy (pyOr dtV ldV) = true
        · rw [if_neg (by simp [hfy]), hp, ebind_okE]
        · rw [if_pos (by simpa using hfy)]
    · rw [if_neg hvt]
      simp only [ebind_okE]
      rw [if_neg Bool.false_ne_true]
      rw [if_neg (by simp [hn])]
      rcases hdate with hfy | hp
      · rw [if_pos hfy]
      · by_cases hfy : truthy (pyOr dtV ldV) = true
        · rw [if_neg (by simp [hfy]), hp, ebind_okE]
        · rw [if_pos (by simpa using hfy)]

/-- C3 witness: the amended theorem applied at concrete items — a parks
item with no title at all, a Ticketmaster item whose `localDate` does not
parse, and a Ticketmaster item with a well-typed Manhattan venue but no
`name`. -/
theorem missing_required_field_skips_witness :
    nycParksTransform [("startdate", .pstr "2024-10-01")] = .ok none ∧
    tmTransform [("name", .pstr "X"),
      ("dates", .pdict [("start", .pdict [("localDate", .pstr "not-a-date")])])] =
      .ok none ∧
    tmTransform [("_embedded", .pdict [("venues", .plist [.pdict
        [("city", .pdict [("name", .pstr "New York")]),
         ("state", .pdict [("stateCode", .pstr "NY")])]])])] = .ok none :=
  ⟨missing_required_field_skips.1 [("startdate", .pstr "2024-10-01")] none rfl (by decide),
   missing_required_field_skips.2.2.2 [("name", .pstr "X"),
      ("dates", .pdict [("start", .pdict [("localDate", .pstr "not-a-date")])])]
      (.pdict []) (.pdict [("localDate", .pstr "not-a-date")]) .pnone
      (.pstr "not-a-date") rfl (by intro h; exact absurd h (by decide)) (by decide)
      rfl rfl rfl (Or.inr rfl),
   missing_required_field_skips.2.2.1
      [("_embedded", .pdict [("venues", .plist [.pdict
        [("city", .pdict [("name", .pstr "New York")]),
         ("state", .pdict [("stateCode", .pstr "NY")])]])])]
      (.pdict [("city", .pdict [("name", .pstr "New York")]),
               ("state", .pdict [("stateCode", .pstr "NY")])])
      rfl (fun _ => rfl) (by decide)⟩

/-- Inversion for a skip-guard when the overall result is a produced event. -/
theorem iteSkip_okSome {β : Type} {c : Prop} [Decidable c] {y : Except PyErr (Option β)}
    {b : β} : (if c then Except.ok none else y) = .ok (some b) ↔ ¬ c ∧ y = .ok (some b) := by
  split <;> simp_all

/-- Inversion for an option-match whose `none` arm skips, when the overall
result is a produced event. -/
theorem matchOpt_okSome {α β : Type} {o : Option α} {f : α → Except PyErr (Option β)} {b : β} :
    (match o with
      | none => Except.ok none
      | some d => f d) = .ok (some b) ↔ ∃ d, o = some d ∧ f d = .ok (some b) := by
  cases o <;> simp

/-- A successful construction carries the passed (string) external id. -/
theorem mkEventCreate_ok_external_id {title description : PyVal} {dt : PyDateTime}
    {et : Option PyDateTime} {lnv lav latv lngv nbv : PyVal} {cat : EventCategory}
    {pmin : Int} {pmax : Option Int} {cap : Option Int} {src : EventSource}
    {eidStr : String} {euv iuv : PyVal} {tags : List String} {md : PyDict} {ev : EventCreate}
    (h : mkEventCreate title description dt et lnv lav latv lngv nbv cat pmin pmax cap
        src (.pstr eidStr) euv iuv tags md = .ok ev) :
    ev.external_id = some eidStr := by
  simp only [mkEventCreate, ebind_ok, iteErr_ok, Except.ok.injEq] at h
  obtain ⟨t, ht, hlen, desc, hdesc, het, lnn, hln, hlnlen, laa, hla, hlalen, latQ, hlat,
    hlatr, lngQ, hlng, hlngr, nbb, hnb, hnblen, hpmin, hpmax, hcap, eidd, heid, heidlen,
    euu, heu, iuu, hiu, hev⟩ := h
  subst hev
  simp only [coerceOptStr, Except.ok.injEq] at heid
  subst heid
  rfl

/-- C6 counterexample: a Ticketmaster raw item with a name and a parseable
date but no provider `id` is skipped outright — `transform` returns `None`
and generates no hashed external id at all, contradicting the claimed
digest fallback "for every adapter". -/
theorem tm_no_provider_id_skips :
    tmTransform [("name", .pstr "X"),
      ("dates", .pdict [("start", .pdict [("localDate", .pstr "2024-01-15")])])] =
      .ok none := rfl

/-- C6 (amended): the NYC Parks adapter (the open-data adapter shares the
same code shape) falls back, when the provider supplies no id, to
`md5(f"{title}_{date_str}_{location_name}")` truncated to 12 hex
characters and prefixed with the source name; identical triples always
produce identical ids, and every event the parks transform produces
carries exactly this id.  The Ticketmaster adapter never hashes: a
produced event always required a truthy provider `id` (an item without one
is skipped — see the counterexample). -/
theorem external_id_fallback_hash :
    (∀ (t : String) (dV lV idV : PyVal), ¬ truthy idV = true →
      nycParksExternalId t dV lV idV =
        "nyc_parks_" ++
          (⟨(md5Hex (t ++ "_" ++ pyStr dV ++ "_" ++ pyStr lV)).toList.take 12⟩ : String)) ∧
    (∀ (t t2 : String) (dV lV idV dV2 lV2 idV2 : PyVal),
      ¬ truthy idV = true → ¬ truthy idV2 = true →
      t = t2 → pyStr dV = pyStr dV2 → pyStr lV = pyStr lV2 →
      nycParksExternalId t dV lV idV = nycParksExternalId t2 dV2 lV2 idV2) ∧
    (∀ (e : PyDict) (ev : EventCreate) (t : String), parksTitleChain e = .pstr t →
      nycParksTransform e = .ok (some ev) →
      ev.external_id = some (nycParksExternalId (pyStrip t) (parksDateChain e)
        (parksLocName e) (parksIdChain e))) ∧
    (∀ (e : PyDict) (ev : EventCreate), tmTransform e = .ok (some ev) →
      truthy (pyGet e "id") = true) := by
  have ha : ∀ (t : String) (dV lV idV : PyVal), ¬ truthy idV = true →
      nycParksExternalId t dV lV idV =
        "nyc_parks_" ++
          (⟨(md5Hex (t ++ "_" ++ pyStr dV ++ "_" ++ pyStr lV)).toList.take 12⟩ : String) := by
    intro t dV lV idV hid
    unfold nycParksExternalId
    rw [if_neg hid]
  refine ⟨ha, ?_, ?_, ?_⟩
  · intro t t2 dV lV idV dV2 lV2 idV2 h1 h2 ht hd hl
    rw [ha t dV lV idV h1, ha t2 dV2 lV2 idV2 h2, ht, hd, hl]
  · intro e ev t htc h
    simp only [nycParksTransform, htc, pyAsStr_pstr, ebind_ok, iteSkip_okSome,
      matchOpt_okSome, Except.ok.injEq, Option.some.injEq, exists_eq_left,
      exists_eq_left'] at h
    obtain ⟨bOpt, hb, hfil, htt, dOpt, hd, h⟩ := h
    cases dOpt with
    | none => simp at h
    | some d0 =>
      simp only [ebind_ok, Except.ok.injEq, Option.some.injEq] at h
      obtain ⟨d1, hd1, endT0, hend, addrV, haddr, descV, hdescv, extU, hextU, imgV, himg,
        cat, hcat, evp, hmk, hev⟩ := h
      subst hev
      exact mkEventCreate_ok_external_id hmk
  · intro e ev h
    by_cases hid : truthy (pyGet e "id") = true
    · exact hid
    · exfalso
      simp only [tmTransform, hid, ebind_ok, iteSkip_okSome, Except.ok.injEq,
        Option.some.injEq, exists_eq_left, exists_eq_left', if_false] at h
      obtain ⟨venue, hv, skipA, hskip, hnoskip, hname, start, hstart, dtV, hdt, ldV, hld,
        hfy, dOpt, hdo, h⟩ := h
      cases dOpt with
      | none => simp at h
      | some d0 =>
        simp only [ebind_ok, Except.ok.injEq, Option.some.injEq, exists_eq_left,
          exists_eq_left'] at h
        simp only [Bool.false_ne_true, if_false, reduceCtorEq, Except.ok.injEq, and_false,
          false_and, exists_false] at h

/-- C6 witness: the digest-fallback clause applied to the spec's example
triple with no provider id. -/
theorem external_id_fallback_hash_witness :
    nycParksExternalId "Fall Festival" (.pstr "2024-10-01T18:00:00") (.pstr "Central Park")
      .pnone =
      "nyc_parks_" ++
        (⟨(md5Hex ("Fall Festival" ++ "_" ++ pyStr (.pstr "2024-10-01T18:00:00") ++ "_" ++
          pyStr (.pstr "Central Park"))).toList.take 12⟩ : String) :=
  external_id_fallback_hash.1 "Fall Festival" (.pstr "2024-10-01T18:00:00")
    (.pstr "Central Park") .pnone (by decide)

/-! ## C1 development -/

/-- `findByKey` misses exactly when the key is absent from the stored keys. -/
theorem findByKey_none_iff (store : List StoredEvent) (k : String × Option String) :
    findByKey store k = none ↔ k ∉ store.map recKey := by
  simp [findByKey, List.find?_eq_none, List.mem_map]

/-- `findByKey` hits exactly when the key is among the stored keys. -/
theorem findByKey_isSome_iff (store : List StoredEvent) (k : String × Option String) :
    (findByKey store k).isSome = true ↔ k ∈ store.map recKey := by
  simp [findByKey, List.find?_isSome, List.mem_map]

/-- Every element is bounded by the fold of `Nat.max`. -/
theorem le_foldr_max (x : Nat) : ∀ (l : List Nat), x ∈ l → x ≤ l.foldr Nat.max 0 := by
  intro l
  induction l with
  | nil => intro h; cases h
  | cons a l ih =>
    intro h
    rcases List.mem_cons.mp h with rfl | h'
    · exact Nat.le_max_left _ _
    · exact Nat.le_trans (ih h') (Nat.le_max_right _ _)

/-- A fresh primary key is strictly larger than every stored id. -/
theorem id_lt_freshId {store : List StoredEvent} {r : StoredEvent} (h : r ∈ store) :
    r.id < freshId store :=
  Nat.lt_succ_of_le (le_foldr_max _ _ (List.mem_map_of_mem _ h))

/-- An in-place update never changes the ids of the table. -/
theorem updateById_map_id (store : List StoredEvent) (rid : Nat) (ev : EventCreate)
    (now : Nat) :
    (updateById store rid ev now).map (fun r => r.id) = store.map (fun r => r.id) := by
  simp only [updateById, List.map_map]
  apply List.map_congr_left
  intro s _
  simp only [Function.comp_apply]
  split <;> rfl

/-- Updating the row found for an event's key rewrites that row's key to
itself, so the table's key column is unchanged (ids are a primary key). -/
theorem updateById_map_recKey {store : List StoredEvent} {r : StoredEvent}
    (hr : r ∈ store) (hids : (store.map (fun s => s.id)).Nodup)
    (ev : EventCreate) (now : Nat) (hkey : recKey r = evKey ev) :
    (updateById store r.id ev now).map recKey = store.map recKey := by
  simp only [updateById, List.map_map]
  apply List.map_congr_left
  intro s hs
  simp only [Function.comp_apply]
  by_cases h : s.id = r.id
  · have hsr : s = r := List.inj_on_of_nodup_map hids hs hr h
    subst hsr
    rw [if_pos h]
    simp only [recKey, evKey] at hkey ⊢
    exact hkey.symm
  · rw [if_neg h]

/-- The per-event loop consumes no error flags when none are injected. -/
theorem loadLoop_nil_errs_cons (d a : Bool) (now : Nat) (ev : EventCreate)
    (rest : List EventCreate) (acc : LoadCounts × List StoredEvent) :
    loadLoop d a now [] (ev :: rest) acc
      = loadLoop d a now [] rest (loadStep d a now false acc ev) := by
  simp [loadLoop]

/-- A live non-dry-run step on an unseen key inserts a fresh row. -/
theorem loadStep_insert (now n u f : Nat) (store : List StoredEvent) (ev : EventCreate)
    (hnone : findByKey store (evKey ev) = none) :
    loadStep false true now false (⟨n, u, f⟩, store) ev
      = (⟨n + 1, u, f⟩,
         store ++ [{ id := freshId store, source := ev.source.value,
                     external_id := ev.external_id, data := ev,
                     created_at := now, updated_at := now }]) := by
  simp [loadStep, hnone]

/-- A live non-dry-run step on a present key updates the found row. -/
theorem loadStep_update (now n u f : Nat) (store : List StoredEvent) (ev : EventCreate)
    (r : StoredEvent) (hsome : findByKey store (evKey ev) = some r) :
    loadStep false true now false (⟨n, u, f⟩, store) ev
      = (⟨n, u + 1, f⟩, updateById store r.id ev now) := by
  simp [loadStep, hsome]

/-- Insert phase: events with fresh, pairwise-distinct keys are all inserted;
the key column gains exactly those keys and ids stay pairwise distinct. -/
theorem loadLoop_insert_phase (now : Nat) (events : List EventCreate) :
    ∀ (n u f : Nat) (store : List StoredEvent),
    (∀ ev ∈ events, evKey ev ∉ store.map recKey) →
    (events.map evKey).Nodup →
    (store.map (fun r => r.id)).Nodup →
    (loadLoop false true now [] events (⟨n, u, f⟩, store)).1 = ⟨n + events.length, u, f⟩ ∧
    (loadLoop false true now [] events (⟨n, u, f⟩, store)).2.map recKey
        = store.map recKey ++ events.map evKey ∧
    ((loadLoop false true now [] events (⟨n, u, f⟩, store)).2.map (fun r => r.id)).Nodup := by
  induction events with
  | nil =>
    intro n u f store _ _ hids
    exact ⟨by simp [loadLoop], by simp [loadLoop], by simpa [loadLoop] using hids⟩
  | cons ev rest ih =>
    intro n u f store hfresh hkeys hids
    have hnone : findByKey store (evKey ev) = none :=
      (findByKey_none_iff store (evKey ev)).mpr (hfresh ev (List.mem_cons_self ev rest))
    rw [loadLoop_nil_errs_cons, loadStep_insert now n u f store ev hnone]
    have hrk : recKey { id := freshId store, source := ev.source.value,
                        external_id := ev.external_id, data := ev,
                        created_at := now, updated_at := now } = evKey ev := rfl
    have hfresh' : ∀ e ∈ rest,
        evKey e ∉ (store ++ [({ id := freshId store, source := ev.source.value,
                                external_id := ev.external_id, data := ev,
                                created_at := now, updated_at := now } : StoredEvent)]).map
            recKey := by
      intro e he
      simp only [List.map_append, List.map_cons, List.map_nil, List.mem_append,
        List.mem_singleton, hrk]
      rintro (hmem | hEq)
      · exact hfresh e (List.mem_cons_of_mem ev he) hmem
      · have : evKey ev ∉ rest.map evKey := (List.nodup_cons.mp hkeys).1
        exact this (hEq ▸ List.mem_map_of_mem evKey he)
    have hkeys' : (rest.map evKey).Nodup := (List.nodup_cons.mp hkeys).2
    have hids' : ((store ++ [({ id := freshId store, source := ev.source.value,
                                external_id := ev.external_id, data := ev,
                                created_at := now, updated_at := now } : StoredEvent)]).map
        (fun r => r.id)).Nodup := by
      simp only [List.map_append, List.map_cons, List.map_nil]
      rw [List.nodup_append]
      refine ⟨hids, List.nodup_singleton _, ?_⟩
      intro x hx hx1
      simp only [List.mem_singleton] at hx1
      obtain ⟨s, hs, hsx⟩ := List.mem_map.mp hx
      have := id_lt_freshId hs
      omega
    obtain ⟨h1, h2, h3⟩ := ih (n + 1) u f _ hfresh' hkeys' hids'
    refine ⟨?_, ?_, h3⟩
    · rw [h1]
      simp only [List.length_cons, LoadCounts.mk.injEq, and_true]
      omega
    · rw [h2]
      simp [hrk]

/-- Update phase: events whose keys are all present are all updated in place;
the key column is unchanged. -/
theorem loadLoop_update_phase (now : Nat) (events : List EventCreate) :
    ∀ (n u f : Nat) (store : List StoredEvent),
    (∀ ev ∈ events, evKey ev ∈ store.map recKey) →
    (store.map (fun r => r.id)).Nodup →
    (loadLoop false true now [] events (⟨n, u, f⟩, store)).1 = ⟨n, u + events.length, f⟩ ∧
    (loadLoop false true now [] events (⟨n, u, f⟩, store)).2.map recKey
        = store.map recKey := by
  induction events with
  | nil =>
    intro n u f store _ _
    exact ⟨by simp [loadLoop], by simp [loadLoop]⟩
  | cons ev rest ih =>
    intro n u f store hmem hids
    have hsome : (findByKey store (evKey ev)).isSome = true :=
      (findByKey_isSome_iff store (evKey ev)).mpr (hmem ev (List.mem_cons_self ev rest))
    obtain ⟨r, hr⟩ := Option.isSome_iff_exists.mp hsome
    have hrmem : r ∈ store := List.mem_of_find?_eq_some hr
    have hrkey : recKey r = evKey ev := by
      have := List.find?_some hr
      simpa using this
    rw [loadLoop_nil_errs_cons, loadStep_update now n u f store ev r hr]
    have hkeyCol : (updateById store r.id ev now).map recKey = store.map recKey :=
      updateById_map_recKey hrmem hids ev now hrkey
    have hids' : ((updateById store r.id ev now).map (fun s => s.id)).Nodup := by
      rw [updateById_map_id]; exact hids
    have hmem' : ∀ e ∈ rest, evKey e ∈ (updateById store r.id ev now).map recKey := by
      intro e he
      rw [hkeyCol]
      exact hmem e (List.mem_cons_of_mem ev he)
    obtain ⟨h1, h2⟩ := ih n (u + 1) f _ hmem' hids'
    refine ⟨?_, ?_⟩
    · rw [h1]
      simp only [List.length_cons, LoadCounts.mk.injEq, true_and, and_true]
      omega
    · rw [h2, hkeyCol]

/-- C1: with the admin client available and no dry run, loading `N` canonical
events whose upsert keys are pairwise distinct and absent from the store (whose
ids satisfy the table's primary-key invariant) inserts them all — `(N, 0, 0)`;
loading the same list again updates them all in place — `(0, N, 0)`; and the
final store holds exactly `N` rows keyed by those events' keys. -/
theorem load_idempotent (now1 now2 : Nat) (events : List EventCreate)
    (store0 : List StoredEvent)
    (hfresh : ∀ ev ∈ events, evKey ev ∉ store0.map recKey)
    (hkeys : (events.map evKey).Nodup)
    (hids : (store0.map (fun r => r.id)).Nodup) :
    (load false true [] now1 events store0).1 = ⟨events.length, 0, 0⟩ ∧
    (load false true [] now2 events (load false true [] now1 events store0).2).1
        = ⟨0, events.length, 0⟩ ∧
    (load false true [] now2 events (load false true [] now1 events store0).2).2.countP
        (fun r => decide (recKey r ∈ events.map evKey)) = events.length := by
  have hload : ∀ (now : Nat) (st : List StoredEvent),
      load false true [] now events st = loadLoop false true now [] events (⟨0, 0, 0⟩, st) := by
    intro now st
    simp [load]
  obtain ⟨h1a, h1b, h1c⟩ := loadLoop_insert_phase now1 events 0 0 0 store0 hfresh hkeys hids
  have hmem1 : ∀ ev ∈ events,
      evKey ev ∈ (loadLoop false true now1 [] events (⟨0, 0, 0⟩, store0)).2.map recKey := by
    intro ev hev
    rw [h1b]
    exact List.mem_append_right _ (List.mem_map_of_mem evKey hev)
  obtain ⟨h2a, h2b⟩ := loadLoop_update_phase now2 events 0 0 0
    (loadLoop false true now1 [] events (⟨0, 0, 0⟩, store0)).2 hmem1 h1c
  refine ⟨?_, ?_, ?_⟩
  · rw [hload now1 store0, h1a]
    simp
  · rw [hload now1 store0, hload now2 _, h2a]
    simp
  · rw [hload now1 store0, hload now2 _]
    have hcnt : ∀ (l : List StoredEvent),
        l.countP (fun r => decide (recKey r ∈ events.map evKey))
          = (l.map recKey).countP (fun k => decide (k ∈ events.map evKey)) := by
      intro l
      rw [List.countP_map]
      rfl
    rw [hcnt, h2b, h1b, List.countP_append]
    have hz : (store0.map recKey).countP (fun k => decide (k ∈ events.map evKey)) = 0 := by
      rw [List.countP_eq_zero]
      intro k hk
      simp only [decide_eq_true_eq]
      intro hkev
      obtain ⟨ev, hev, hevk⟩ := List.mem_map.mp hkev
      exact hfresh ev hev (hevk ▸ hk)
    have hall : (events.map evKey).countP (fun k => decide (k ∈ events.map evKey))
        = (events.map evKey).length := by
      rw [List.countP_eq_length]
      intro k hk
      simpa using hk
    rw [hz, hall, List.length_map]
    omega

/-- A concrete canonical event for exercising the loader. -/
def c1SampleEvent : EventCreate :=
  { title := "Sample Event", description := none,
    date_time := ⟨2024, 10, 1, 18, 0, 0, 0⟩, end_time := none,
    location_name := "Central Park", location_address := none,
    latitude := none, longitude := none, neighborhood := none,
    category := .outdoor, price_min := 0, price_max := none, capacity := none,
    source := .nyc_parks, external_id := some "nyc_parks_1", external_url := none,
    image_url := none, tags := [], metadata := [] }

/-- C1 witness: one concrete event against the empty store — first load
`(1, 0, 0)`, second load `(0, 1, 0)`, one stored row for its key. -/
theorem load_idempotent_witness :
    (load false true [] 0 [c1SampleEvent] []).1 = ⟨1, 0, 0⟩ ∧
    (load false true [] 1 [c1SampleEvent] (load false true [] 0 [c1SampleEvent] []).2).1
        = ⟨0, 1, 0⟩ ∧
    (load false true [] 1 [c1SampleEvent]
        (load false true [] 0 [c1SampleEvent] []).2).2.countP
        (fun r => decide (recKey r ∈ [c1SampleEvent].map evKey)) = 1 :=
  load_idempotent 0 1 [c1SampleEvent] [] (by simp) (by simp) (by simp)
